import Mathlib

/-!
# AI-Content-Verifier: session, route guards, dashboard, submission views

A shallow embedding of `frontend/src/context/AuthContext.js`, of the
interceptors of the HTTP client of `frontend/src/utils/api.js`, of the two
route guards of `frontend/src/App.jsx`, of the activity list and the insights
card of `frontend/src/pages/Dashboard.jsx`, and of the submission handlers of
`TextVerifier.jsx`, `ImageVerifier.jsx` and `VideoVerifier.jsx`.

* React state (`useState`) is a field of `Browser`; a setter writes the field.
* `localStorage` is an association list with `getItem`/`setItem`/`removeItem`.
* An `async` function is a resumption (`Async`): synchronous statements
  (`exec`) and suspension points (`await` of one HTTP request), whose
  continuation receives the settled response.
* `World` holds the browser state, the calls that are suspended at a request
  and the results already returned; `step` handles one event (a call made by
  the UI, or one outstanding request settling) and then runs the
  `useEffect` hook of `AuthProvider` when `token` changed.
-/

namespace AuthContext

/-! ## Data model -/

/-- The payload of `GET /api/auth/me`, the object stored by `setUser(response.data)`. -/
structure Profile where
  id : String
  email : String
  full_name : String
deriving DecidableEq, Repr

/-- The browser's `localStorage`: string keys, string values. -/
abbrev LocalStorage := List (String × String)

/-- Lookup `localStorage.getItem(key)`: `none` is JavaScript's `null`. -/
def getItem : LocalStorage → String → Option String
  | [], _ => none
  | (k, v) :: rest, key => if k = key then some v else getItem rest key

/-- Removal `localStorage.removeItem(key)`. -/
def removeItem : LocalStorage → String → LocalStorage
  | [], _ => []
  | (k, v) :: rest, key => if k = key then removeItem rest key else (k, v) :: removeItem rest key

/-- Update `localStorage.setItem(key, value)`. -/
def setItem (ls : LocalStorage) (key value : String) : LocalStorage :=
  (key, value) :: removeItem ls key

/-- One character of a JSON string literal, as `JSON.stringify` writes it. -/
def jsonChar (c : Char) : List Char :=
  if c = Char.ofNat 34 then [Char.ofNat 92, Char.ofNat 34]
  else if c = Char.ofNat 92 then [Char.ofNat 92, Char.ofNat 92]
  else if c = Char.ofNat 8 then [Char.ofNat 92, 'b']
  else if c = Char.ofNat 12 then [Char.ofNat 92, 'f']
  else if c = Char.ofNat 10 then [Char.ofNat 92, 'n']
  else if c = Char.ofNat 13 then [Char.ofNat 92, 'r']
  else if c = Char.ofNat 9 then [Char.ofNat 92, 't']
  else if c.toNat < 32 then
    [Char.ofNat 92, 'u', '0', '0', Nat.digitChar (c.toNat / 16), Nat.digitChar (c.toNat % 16)]
  else [c]

/-- A JSON string literal. -/
def jsonString (s : String) : String :=
  String.mk ([Char.ofNat 34] ++ (s.data.map jsonChar).flatten ++ [Char.ofNat 34])

/-- The text `JSON.stringify(response.data)` of a profile. -/
def JSON_stringify (p : Profile) : String :=
  "\x7b" ++ jsonString "id" ++ ":" ++ jsonString p.id ++ ","
    ++ jsonString "email" ++ ":" ++ jsonString p.email ++ ","
    ++ jsonString "full_name" ++ ":" ++ jsonString p.full_name ++ "\x7d"

/-- The state the session code reads and writes: the three `useState` cells of
`AuthProvider`, `localStorage`, and `window.location` (the current path, and
the target last assigned to `window.location.href`, if any). -/
structure Browser where
  user : Option Profile
  loading : Bool
  token : Option String
  localStorage : LocalStorage
  pathname : String
  href : Option String
deriving DecidableEq, Repr

/-- JavaScript truthiness of a value that is `null` or a string. -/
def truthy : Option String → Bool
  | none => false
  | some s => s != ""

/-- The exposed flag `isAuthenticated: !!token && !!user`. -/
def isAuthenticated (b : Browser) : Bool :=
  truthy b.token && b.user.isSome

/-- The rejection value of a request: `error.response?.status` and
`error.response?.data?.detail`. -/
structure AxiosError where
  status : Option Nat
  detail : Option String
deriving DecidableEq, Repr

/-- The result object of `login` and `register`. -/
structure AuthResult where
  success : Bool
  error : Option String
deriving DecidableEq, Repr

/-! ## Synchronous operations -/

/-- The function `logout` of `AuthProvider`. -/
def logout (b : Browser) : Browser :=
  { b with
    token := none
    user := none
    localStorage := removeItem (removeItem b.localStorage "token") "user" }

/-- The setter `setLoading`. -/
def setLoading (v : Bool) (b : Browser) : Browser :=
  { b with loading := v }

/-- Substring test `s.includes(sub)`. -/
def includes (s sub : String) : Bool :=
  decide (sub.data <:+: s.data)

/-- The rejection handler of `api.interceptors.response`, for a request to `url`. -/
def responseError (url : String) (e : AxiosError) (b : Browser) : Browser :=
  if e.status = some 401 then
    let isAuthEndpoint :=
      includes url "/api/auth/login" ||
      includes url "/api/auth/register" ||
      includes url "/api/auth/validate-password" ||
      includes url "/api/auth/change-password"
    if !isAuthEndpoint && b.pathname != "/login" && b.pathname != "/signup" then
      { b with
        localStorage := removeItem (removeItem b.localStorage "token") "user"
        href := some "/login" }
    else b
  else b

/-- The expression `error.response?.data?.detail || fallback`. -/
def detailOr (e : AxiosError) (fallback : String) : String :=
  match e.detail with
  | some d => if d != "" then d else fallback
  | none => fallback

/-! ## Asynchronous functions -/

/-- A running `async` function: it returns, executes a synchronous statement,
or is suspended at one HTTP request until the request settles. -/
inductive Async (α : Type) : Type
  | ret (a : α)
  | exec (f : Browser → Browser) (k : Async α)
  | getMe (k : Except AxiosError Profile → Async α)
  | postLogin (email password : String) (k : Except AxiosError String → Async α)
  | postRegister (email password fullName : String) (k : Except AxiosError Unit → Async α)

/-- Sequencing `await m; f`. -/
def Async.bind {α β : Type} : Async α → (α → Async β) → Async β
  | .ret a, f => f a
  | .exec g k, f => .exec g (k.bind f)
  | .getMe k, f => .getMe (fun r => (k r).bind f)
  | .postLogin e p k, f => .postLogin e p (fun r => (k r).bind f)
  | .postRegister e p n k, f => .postRegister e p n (fun r => (k r).bind f)

/-- The request `authAPI.getMe()`: the response interceptor sees a rejection first. -/
def authAPI_getMe {α : Type} (k : Except AxiosError Profile → Async α) : Async α :=
  .getMe (fun r =>
    match r with
    | .ok d => k (.ok d)
    | .error e => .exec (responseError "/api/auth/me" e) (k (.error e)))

/-- The request `authAPI.login({ email, password })`. -/
def authAPI_login {α : Type} (email password : String)
    (k : Except AxiosError String → Async α) : Async α :=
  .postLogin email password (fun r =>
    match r with
    | .ok d => k (.ok d)
    | .error e => .exec (responseError "/api/auth/login" e) (k (.error e)))

/-- The request `authAPI.register({ email, password, full_name })`. -/
def authAPI_register {α : Type} (email password fullName : String)
    (k : Except AxiosError Unit → Async α) : Async α :=
  .postRegister email password fullName (fun r =>
    match r with
    | .ok d => k (.ok d)
    | .error e => .exec (responseError "/api/auth/register" e) (k (.error e)))

/-- The function `fetchUser` of `AuthProvider`. -/
def fetchUser : Async Unit :=
  authAPI_getMe (fun response =>
    match response with
    | .ok data =>
      .exec (fun b => { b with user := some data })
        (.exec (fun b =>
            { b with localStorage := setItem b.localStorage "user" (JSON_stringify data) })
          (.exec (setLoading false) (.ret ())))
    | .error _ =>
      .exec logout (.exec (setLoading false) (.ret ())))

/-- The function `login` of `AuthProvider`. -/
def login (email password : String) : Async AuthResult :=
  authAPI_login email password (fun response =>
    match response with
    | .ok accessToken =>
      .exec (fun b => { b with token := some accessToken })
        (.exec (fun b => { b with localStorage := setItem b.localStorage "token" accessToken })
          (fetchUser.bind (fun _ => .ret { success := true, error := none })))
    | .error error =>
      .ret { success := false, error := some (detailOr error "Login failed") })

/-- The function `register` of `AuthProvider`. -/
def register (email password fullName : String) : Async AuthResult :=
  authAPI_register email password fullName (fun response =>
    match response with
    | .ok _ => login email password
    | .error error =>
      .ret { success := false, error := some (detailOr error "Registration failed") })

/-! ## Scheduling -/

/-- Run a call up to its return or its next suspension point. -/
def advance {α : Type} : Async α → Browser → Browser × Async α
  | .exec f k, b => advance k (f b)
  | t, b => (b, t)

/-- What `fetchUser`, `login` and `register` hand to their caller: `none` is
the `undefined` of `fetchUser`. -/
abbrev Outcome := Option AuthResult

/-- The browser together with the calls in progress. `inflight` lists the
calls suspended at a request, oldest first, each under the label its caller
gave it; `returned` lists the labelled results handed back so far. -/
structure World where
  browser : Browser
  inflight : List (Nat × Async Outcome)
  returned : List (Nat × Outcome)

/-- Start or resume the call labelled `id` and file it by where it stops. -/
def spawn (id : Nat) (t : Async Outcome) (w : World) : World :=
  match advance t w.browser with
  | (b, .ret a) => { w with browser := b, returned := w.returned ++ [(id, a)] }
  | (b, t1) => { w with browser := b, inflight := w.inflight ++ [(id, t1)] }

/-- A settled HTTP request, by the endpoint it was sent to. -/
inductive Response
  | getMe (r : Except AxiosError Profile)
  | postLogin (r : Except AxiosError String)
  | postRegister (r : Except AxiosError Unit)

/-- The continuation of a suspended call for a response of its own endpoint. -/
def resume : Async Outcome → Response → Option (Async Outcome)
  | .getMe k, .getMe r => some (k r)
  | .postLogin _ _ k, .postLogin r => some (k r)
  | .postRegister _ _ _ k, .postRegister r => some (k r)
  | _, _ => none

/-- The request of the `i`-th suspended call settles with `r`. -/
def settle (i : Nat) (r : Response) (w : World) : World :=
  match w.inflight.get? i with
  | none => w
  | some (id, t) =>
    match resume t r with
    | none => w
    | some t1 => spawn id t1 { w with inflight := w.inflight.eraseIdx i }

/-- The `fetchUser` handed out by the provider, its result being `undefined`. -/
def fetchUserCall : Async Outcome :=
  fetchUser.bind (fun _ => .ret none)

/-- The `login` handed out by the provider. -/
def loginCall (email password : String) : Async Outcome :=
  (login email password).bind (fun r => .ret (some r))

/-- The `register` handed out by the provider. -/
def registerCall (email password fullName : String) : Async Outcome :=
  (register email password fullName).bind (fun r => .ret (some r))

/-- The body of the `useEffect` hook of `AuthProvider`; its `fetchUser()` is labelled 0. -/
def effectBody (w : World) : World :=
  if truthy w.browser.token then spawn 0 fetchUserCall w
  else { w with browser := setLoading false w.browser }

/-- The `useEffect` hook after a render: its body runs when `token` differs
from the value `old` of the previous render. -/
def effect (old : Option String) (w : World) : World :=
  if w.browser.token = old then w else effectBody w

/-- What the application does to the session. -/
inductive Event
  | login (id : Nat) (email password : String)
  | register (id : Nat) (email password fullName : String)
  | logout
  | fetchUser (id : Nat)
  | settle (i : Nat) (r : Response)

/-- The handler of one event, before the hook runs. -/
def handle (w : World) : Event → World
  | .login id email password => spawn id (loginCall email password) w
  | .register id email password fullName => spawn id (registerCall email password fullName) w
  | .logout => { w with browser := logout w.browser }
  | .fetchUser id => spawn id fetchUserCall w
  | .settle i r => settle i r w

/-- One event and the render that follows it. -/
def step (w : World) (ev : Event) : World :=
  effect w.browser.token (handle w ev)

/-- The first render of `AuthProvider` and its first run of the hook (`init`). -/
def mount (ls : LocalStorage) (pathname : String) : World :=
  effectBody
    { browser :=
        { user := none
          loading := true
          token := getItem ls "token"
          localStorage := ls
          pathname := pathname
          href := none }
      inflight := []
      returned := [] }

/-- The session after a sequence of events. -/
def run (w : World) (evs : List Event) : World :=
  evs.foldl step w

/-! ## Compound session writes -/

/-- A `login` call whose token is stored and whose `await fetchUser()` is outstanding. -/
def loginFetching : Async Outcome :=
  (fetchUser.bind (fun _ => Async.ret ({ success := true, error := none } : AuthResult))).bind
    (fun r => .ret (some r))

/-- The session writes of `fetchUser` after a fulfilled request. -/
def profileStored (data : Profile) (b : Browser) : Browser :=
  setLoading false
    { b with
      user := some data
      localStorage := setItem b.localStorage "user" (JSON_stringify data) }

/-- The session writes of `fetchUser` after a rejected request, the interceptor included. -/
def fetchRejected (e : AxiosError) (b : Browser) : Browser :=
  setLoading false (logout (responseError "/api/auth/me" e b))

/-- The session writes of `login` after a fulfilled request. -/
def tokenStored (accessToken : String) (b : Browser) : Browser :=
  { b with
    token := some accessToken
    localStorage := setItem b.localStorage "token" accessToken }

end AuthContext

namespace App

open AuthContext

/-- What a route guard renders. -/
inductive Rendered (α : Type)
  | loadingContainer
  | children (c : α)
  | navigate (target : String)
deriving DecidableEq, Repr

/-- The component `ProtectedRoute`. -/
def ProtectedRoute {α : Type} (b : Browser) (children : α) : Rendered α :=
  if b.loading then .loadingContainer
  else if isAuthenticated b then .children children else .navigate "/login"

/-- The component `PublicRoute`. -/
def PublicRoute {α : Type} (b : Browser) (children : α) : Rendered α :=
  if b.loading then .loadingContainer
  else if !isAuthenticated b then .children children else .navigate "/dashboard"

end App

namespace Dashboard

open AuthContext

/-! ## Activity list of the dashboard (`frontend/src/pages/Dashboard.jsx`)

The component keeps the query (`filterType`, `searchQuery`, `currentPage`,
`pageLimit`) and the displayed view (`results`, `totalResults`) in `useState`
cells. `fetchActivityData` closes over the query of the render that created it,
requests the records, and computes the view from the response. -/

/-- One element of the array returned by `GET /api/results/`. -/
structure VerificationRecord where
  id : String
  type : String
  result : Bool
  confidence : Rat
  timestamp : String
  content : Option String
deriving DecidableEq, Repr

/-- The four values `fetchActivityData` closes over (its `useCallback` dependencies). -/
structure Query where
  filterType : String
  searchQuery : String
  currentPage : Int
  pageLimit : Nat
deriving DecidableEq, Repr

/-- The method `toLowerCase`, on the letters A to Z; other characters are kept as they are. -/
def toLowerCase (s : String) : String :=
  String.mk (s.data.map Char.toLower)

/-- The characters `trim` strips: ECMAScript white space and line terminators. -/
def isWhiteSpace (c : Char) : Bool :=
  let n := c.toNat
  n = 0x9 || n = 0xA || n = 0xB || n = 0xC || n = 0xD || n = 0x20 || n = 0xA0 ||
  n = 0x1680 || (0x2000 ≤ n && n ≤ 0x200A) || n = 0x2028 || n = 0x2029 ||
  n = 0x202F || n = 0x205F || n = 0x3000 || n = 0xFEFF

/-- The method `trim`. -/
def trim (s : String) : String :=
  String.mk ((s.data.dropWhile isWhiteSpace).reverse.dropWhile isWhiteSpace).reverse

/-- The step "Apply type filter" of `fetchActivityData`. -/
def applyTypeFilter (filterType : String) (allResults : List VerificationRecord) :
    List VerificationRecord :=
  if filterType != "all" then allResults.filter (fun result => result.type == filterType)
  else allResults

/-- The callback of the search filter, for the lower-cased `query`. -/
def matchesQuery (query : String) (result : VerificationRecord) : Bool :=
  includes (toLowerCase result.type) query ||
    includes (if result.result then "ai" else "human") query

/-- The step "Apply search filter" of `fetchActivityData`. -/
def applySearchFilter (searchQuery : String) (allResults : List VerificationRecord) :
    List VerificationRecord :=
  if trim searchQuery != "" then
    allResults.filter (matchesQuery (toLowerCase searchQuery))
  else allResults

/-- The list `allResults` after both filters. -/
def filterResults (q : Query) (data : List VerificationRecord) : List VerificationRecord :=
  applySearchFilter q.searchQuery (applyTypeFilter q.filterType data)

/-- The method `Array.prototype.slice(start, end)` for integer arguments. -/
def slice {α : Type} (l : List α) (start stop : Int) : List α :=
  let len : Int := l.length
  let k : Int := if start < 0 then max (len + start) 0 else min start len
  let final : Int := if stop < 0 then max (len + stop) 0 else min stop len
  (l.drop k.toNat).take (final - k).toNat

/-- What `fetchActivityData` writes after a fulfilled request. -/
structure View where
  totalResults : Nat
  results : List VerificationRecord
deriving DecidableEq, Repr

/-- The synchronous part of `fetchActivityData` after `response.data` arrived. -/
def computeView (q : Query) (data : List VerificationRecord) : View :=
  let allResults := filterResults q data
  let startIndex : Int := q.currentPage * q.pageLimit
  let endIndex : Int := startIndex + q.pageLimit
  { totalResults := allResults.length
    results := slice allResults startIndex endIndex }

/-- The expression `Math.ceil(totalResults / pageLimit)`, for `pageLimit > 0`. -/
def totalPages (totalResults pageLimit : Nat) : Nat :=
  Nat.ceil ((totalResults : ℚ) / (pageLimit : ℚ))

/-- The `useState` cells of `Dashboard` that the activity list uses. -/
structure State where
  results : List VerificationRecord
  searchQuery : String
  filterType : String
  pageLimit : Nat
  currentPage : Int
  totalResults : Nat
deriving DecidableEq, Repr

/-- The query of the current render. -/
def State.query (s : State) : Query :=
  { filterType := s.filterType
    searchQuery := s.searchQuery
    currentPage := s.currentPage
    pageLimit := s.pageLimit }

/-- The handler `handleFilterChange`. -/
def handleFilterChange (type : String) (s : State) : State :=
  { s with filterType := type, currentPage := 0 }

/-- The `onChange` handler of the search input. -/
def handleSearchChange (value : String) (s : State) : State :=
  { s with searchQuery := value, currentPage := 0 }

/-- The handler `handlePageLimitChange`; `limit` is the number `parseInt` reads
from the value of the selected option. -/
def handlePageLimitChange (limit : Nat) (s : State) : State :=
  { s with pageLimit := limit, currentPage := 0 }

/-- The `onClick` handler of the Previous button. -/
def handlePrevious (s : State) : State :=
  { s with currentPage := max 0 (s.currentPage - 1) }

/-- The `onClick` handler of the Next button. -/
def handleNext (s : State) : State :=
  { s with
    currentPage := min ((totalPages s.totalResults s.pageLimit : Int) - 1) (s.currentPage + 1) }

/-- The dashboard in its browser: the session state it reads through `useAuth`
(and that the response interceptor writes), its own state, and the queries
whose `resultsAPI.getAll(1000, 0)` request is outstanding, oldest first. -/
structure World where
  browser : Browser
  ui : State
  inflight : List Query
deriving DecidableEq, Repr

/-- The call `fetchActivityData()` up to its `await`: the request is sent and
the call keeps the query it closed over. -/
def fetchActivityData (w : World) : World :=
  { w with inflight := w.inflight ++ [w.ui.query] }

/-- How the promise of an `async` function of the dashboard settles for its
caller: fulfilled (with `undefined`) or rejected with the error. -/
inductive Settlement
  | fulfilled
  | rejected (error : AxiosError)
deriving DecidableEq, Repr

/-- The rest of `fetchActivityData` once its request settled, with the way its
own promise settles: the `catch` block logs the error and returns, so the
promise is fulfilled after a rejected request too. The interceptor sees a
rejection first. -/
def fetchActivityDataSettled (q : Query) (response : Except AxiosError (List VerificationRecord))
    (w : World) : World × Settlement :=
  match response with
  | .ok data =>
    let v := computeView q data
    ({ w with ui := { w.ui with totalResults := v.totalResults, results := v.results } },
      .fulfilled)
  | .error error =>
    ({ w with browser := responseError "/api/results/?limit=1000&skip=0" error w.browser },
      .fulfilled)

/-- The second `useEffect` hook after a render: `fetchActivityData` was rebuilt
when the query differs from the query `old` of the previous render, and is
then called if the user is authenticated. No event of the dashboard changes
`isAuthenticated`, the other dependency of the hook. -/
def effect (old : Query) (w : World) : World :=
  if w.ui.query = old then w
  else if isAuthenticated w.browser then fetchActivityData w else w

/-- What happens to the activity list. -/
inductive Event
  | filterChange (type : String)
  | searchChange (value : String)
  | pageLimitChange (limit : Nat)
  | previous
  | next
  | settle (i : Nat) (response : Except AxiosError (List VerificationRecord))

/-- The handler of one event, before the hook runs. -/
def handle (w : World) : Event → World
  | .filterChange type => { w with ui := handleFilterChange type w.ui }
  | .searchChange value => { w with ui := handleSearchChange value w.ui }
  | .pageLimitChange limit => { w with ui := handlePageLimitChange limit w.ui }
  | .previous => { w with ui := handlePrevious w.ui }
  | .next => { w with ui := handleNext w.ui }
  | .settle i response =>
    match w.inflight.get? i with
    | none => w
    | some q => (fetchActivityDataSettled q response { w with inflight := w.inflight.eraseIdx i }).1

/-- One event and the render that follows it. -/
def step (w : World) (ev : Event) : World :=
  effect w.ui.query (handle w ev)

/-- The first render of `Dashboard` and the first run of the hook. -/
def mount (browser : Browser) : World :=
  let w : World :=
    { browser := browser
      ui :=
        { results := []
          searchQuery := ""
          filterType := "all"
          pageLimit := 10
          currentPage := 0
          totalResults := 0 }
      inflight := [] }
  if isAuthenticated browser then fetchActivityData w else w

/-- The dashboard after a sequence of events. -/
def run (w : World) (evs : List Event) : World :=
  evs.foldl step w

end Dashboard

namespace Dashboard

open AuthContext

/-! ## Empty state and insights card of the dashboard -/

/-- The payload of `GET /api/results/stats`. -/
structure Stats where
  total_verifications : Nat
  ai_detected : Nat
  human_detected : Nat
  text_count : Nat
  image_count : Nat
  video_count : Nat
deriving DecidableEq, Repr

/-- The `useState` cells `stats` and `loading` of `Dashboard`, written by
`fetchDashboardData`. -/
structure Summary where
  stats : Option Stats
  loading : Bool
deriving DecidableEq, Repr

/-- The cells `stats` and `loading` on the first render. -/
def Summary.initial : Summary :=
  { stats := none, loading := true }

/-- The rest of `fetchDashboardData` once its request settled: `setStats` on
success, `setLoading(false)` in the `finally` block. -/
def fetchDashboardDataSettled (response : Except AxiosError Stats) (p : Summary) : Summary :=
  match response with
  | .ok data => { stats := some data, loading := false }
  | .error _ => { p with loading := false }

/-- The paragraph of the empty state. While `loading` the component returns the
spinner alone; afterwards the paragraph is rendered when
`filteredResults.length === 0`, its text chosen by
`searchQuery || filterType !== "all"`. -/
def emptyMessage (p : Summary) (s : State) : Option String :=
  if p.loading then none
  else if s.results.length = 0 then
    some (if s.searchQuery != "" || s.filterType != "all" then
        "No activities match your filters"
      else "No verifications yet. Start by verifying your first content!")
  else none

/-- A JavaScript number as the insights card computes it from two counts: an
exact quotient, `NaN` or `Infinity`. -/
inductive JsNumber
  | finite (q : ℚ)
  | nan
  | infinity
deriving DecidableEq, Repr

/-- The quotient `a / b` of two counts. -/
def jsDiv (a b : Nat) : JsNumber :=
  if b = 0 then (if a = 0 then .nan else .infinity) else .finite ((a : ℚ) / (b : ℚ))

/-- The product `x * 100`. -/
def times100 : JsNumber → JsNumber
  | .finite q => .finite (q * 100)
  | .nan => .nan
  | .infinity => .infinity

/-- The function `Math.round`. -/
def mathRound : JsNumber → JsNumber
  | .finite q => .finite (⌊q + 1 / 2⌋ : Int)
  | .nan => .nan
  | .infinity => .infinity

/-- The expression `x || 0` on a number. -/
def orZero : JsNumber → JsNumber
  | .finite q => .finite q
  | .nan => .finite 0
  | .infinity => .infinity

/-- What the insights card shows: nothing while `loading` or while `stats` is
null, the message "No verification data yet" or the chart, with its two bar
widths and its three rounded percentages (two in the legend, one as detection
rate). -/
inductive InsightsCard
  | hidden
  | insightsEmpty
  | chart (barWidths : List JsNumber) (percentages : List JsNumber)
deriving DecidableEq, Repr

/-- The insights card of the render with the cells `p`. -/
def insightsCard (p : Summary) : InsightsCard :=
  if p.loading then .hidden
  else
    match p.stats with
    | none => .hidden
    | some stats =>
      if stats.total_verifications > 0 then
        .chart
          [times100 (jsDiv stats.ai_detected stats.total_verifications),
            times100 (jsDiv stats.human_detected stats.total_verifications)]
          [orZero (mathRound (times100 (jsDiv stats.ai_detected stats.total_verifications))),
            orZero (mathRound (times100 (jsDiv stats.human_detected stats.total_verifications))),
            orZero (mathRound (times100 (jsDiv stats.ai_detected stats.total_verifications)))]
      else .insightsEmpty

/-- Every bar width and percentage a card shows. -/
def InsightsCard.displayed : InsightsCard → List JsNumber
  | .hidden => []
  | .insightsEmpty => []
  | .chart barWidths percentages => barWidths ++ percentages

end Dashboard

namespace AuthContext

/-! ## The interceptors of the HTTP client, seen from a caller -/

/-- The request interceptor: the `Authorization` header it adds, if any; it
reads `localStorage` and writes nothing. -/
def requestAuthorization (b : Browser) : Option String :=
  match getItem b.localStorage "token" with
  | some token => if token != "" then some ("Bearer " ++ token) else none
  | none => none

/-- The rejection handler of the response interceptor with its result: the
browser state it leaves and `Promise.reject(error)`. -/
def rejectResponse {α : Type} (url : String) (error : AxiosError) (b : Browser) :
    Browser × Except AxiosError α :=
  (responseError url error b, .error error)

end AuthContext

namespace Verifier

open AuthContext

/-! ## Submission views (`TextVerifier.jsx`, `ImageVerifier.jsx`, `VideoVerifier.jsx`) -/

/-- The three submission views. -/
inductive Kind
  | text
  | image
  | video
deriving DecidableEq, Repr

/-- The URL of `detectAPI.text`, `detectAPI.image`, `detectAPI.video`. -/
def Kind.url : Kind → String
  | .text => "/api/detect/text"
  | .image => "/api/detect/image"
  | .video => "/api/detect/video"

/-- The fallback message of the view. -/
def Kind.fallback : Kind → String
  | .text => "Failed to verify text"
  | .image => "Failed to verify image"
  | .video => "Failed to verify video"

/-- The message set on a 401. -/
def signInMessage : String :=
  "Please login to verify content. Sign up for free to get started!"

/-- The `useState` cells of a view: `text` is used by the text view, `file`
(the selected file, by name) by the image and video views. -/
structure State where
  text : String
  file : Option String
  result : Option Dashboard.VerificationRecord
  loading : Bool
  error : String
deriving DecidableEq, Repr

/-- A view in its browser, with the payloads of its outstanding detection requests. -/
structure World where
  kind : Kind
  browser : Browser
  view : State
  inflight : List String
deriving DecidableEq, Repr

/-- Whether the submit or verify button can be clicked: `disabled={loading ||
!text.trim()}` in the text view; rendered under `file &&` with
`disabled={loading}` in the other two. -/
def buttonEnabled (w : World) : Bool :=
  match w.kind with
  | .text => !(w.view.loading || Dashboard.trim w.view.text == "")
  | _ => w.view.file.isSome && !w.view.loading

/-- The handler `handleSubmit` of the text view up to its `await`. -/
def handleSubmit (w : World) : World :=
  { w with
    view := { w.view with error := "", loading := true, result := none }
    inflight := w.inflight ++ [w.view.text] }

/-- The handler `handleVerify` of the image and video views up to its `await`. -/
def handleVerify (w : World) : World :=
  match w.view.file with
  | none => w
  | some file =>
    { w with
      view := { w.view with error := "", loading := true, result := none }
      inflight := w.inflight ++ [file] }

/-- The `catch` block of the three handlers. -/
def catchError (kind : Kind) (err : AxiosError) (s : State) : State :=
  if err.status = some 401 then { s with error := signInMessage }
  else { s with error := detailOr err kind.fallback }

/-- The rest of a handler once its request settled: the interceptor sees a
rejection first, the `finally` block runs last. -/
def settled (response : Except AxiosError Dashboard.VerificationRecord) (w : World) : World :=
  match response with
  | .ok data => { w with view := { w.view with result := some data, loading := false } }
  | .error err =>
    { w with
      browser := responseError w.kind.url err w.browser
      view := { catchError w.kind err w.view with loading := false } }

/-- What happens to a view. -/
inductive Event
  | changeText (value : String)
  | upload (selectedFile : String)
  | click
  | settle (i : Nat) (response : Except AxiosError Dashboard.VerificationRecord)

/-- One event. A click reaches the handler only when the button is enabled. -/
def step (w : World) : Event → World
  | .changeText value => { w with view := { w.view with text := value } }
  | .upload selectedFile =>
    { w with view := { w.view with file := some selectedFile, result := none, error := "" } }
  | .click =>
    if buttonEnabled w then
      match w.kind with
      | .text => handleSubmit w
      | _ => handleVerify w
    else w
  | .settle i response =>
    match w.inflight.get? i with
    | none => w
    | some _ => settled response { w with inflight := w.inflight.eraseIdx i }

/-- The first render of a view; `quickText` is the text handed over by the
home page, if any. -/
def mount (kind : Kind) (browser : Browser) (quickText : Option String) : World :=
  { kind := kind
    browser := browser
    view :=
      { text := match quickText with
          | some t => if kind = .text ∧ t ≠ "" then t else ""
          | none => ""
        file := none
        result := none
        loading := false
        error := "" }
    inflight := [] }

/-- The view after a sequence of events. -/
def run (w : World) (evs : List Event) : World :=
  evs.foldl step w

/-- The state of a view between events: a request is outstanding exactly
while `loading` is true, and then there is one. -/
def Consistent (w : World) : Prop :=
  w.inflight.length = if w.view.loading then 1 else 0

end Verifier

namespace AuthContext

/-! ## Facts about `localStorage` -/

theorem getItem_removeItem_self (ls : LocalStorage) (key : String) :
    getItem (removeItem ls key) key = none := by
  induction ls with
  | nil => rfl
  | cons kv rest ih =>
    obtain ⟨k, v⟩ := kv
    by_cases h : k = key
    · simp [removeItem, h, ih]
    · simp [removeItem, getItem, h, ih]

theorem getItem_removeItem_of_ne (ls : LocalStorage) {key other : String} (h : key ≠ other) :
    getItem (removeItem ls other) key = getItem ls key := by
  induction ls with
  | nil => rfl
  | cons kv rest ih =>
    obtain ⟨k, v⟩ := kv
    simp only [removeItem, getItem]
    split_ifs with h1 h2 h2
    · exact absurd (h2.symm.trans h1) h
    · exact ih
    · simp [getItem, h2]
    · simp [getItem, h2, ih]

theorem getItem_setItem_self (ls : LocalStorage) (key value : String) :
    getItem (setItem ls key value) key = some value := by
  simp [setItem, getItem]

theorem getItem_setItem_of_ne (ls : LocalStorage) {key other : String} (value : String)
    (h : key ≠ other) :
    getItem (setItem ls other value) key = getItem ls key := by
  have h1 : ¬ other = key := fun hk => h hk.symm
  simp [setItem, getItem, h1, getItem_removeItem_of_ne ls h]

theorem removeItem_removeItem_self (ls : LocalStorage) (key : String) :
    removeItem (removeItem ls key) key = removeItem ls key := by
  induction ls with
  | nil => rfl
  | cons kv rest ih =>
    obtain ⟨k, v⟩ := kv
    by_cases h : k = key
    · simp [removeItem, h, ih]
    · simp [removeItem, h, ih]

theorem removeItem_comm (ls : LocalStorage) (a b : String) :
    removeItem (removeItem ls a) b = removeItem (removeItem ls b) a := by
  induction ls with
  | nil => rfl
  | cons kv rest ih =>
    obtain ⟨k, v⟩ := kv
    simp only [removeItem]
    split_ifs with h1 h2 h2
    · exact ih
    · simp [removeItem, h1, ih]
    · simp [removeItem, h2, ih]
    · simp [removeItem, h1, h2, ih]

/-- Clearing both session entries a second time changes nothing. -/
theorem removeItem_session_twice (ls : LocalStorage) :
    removeItem (removeItem (removeItem (removeItem ls "token") "user") "token") "user"
      = removeItem (removeItem ls "token") "user" := by
  rw [removeItem_comm (removeItem ls "token") "user" "token", removeItem_removeItem_self ls "token",
    removeItem_removeItem_self]

theorem getItem_token_cleared (ls : LocalStorage) :
    getItem (removeItem (removeItem ls "token") "user") "token" = none := by
  rw [getItem_removeItem_of_ne _ (by decide : ("token" : String) ≠ "user")]
  exact getItem_removeItem_self ls "token"

theorem getItem_user_cleared (ls : LocalStorage) :
    getItem (removeItem (removeItem ls "token") "user") "user" = none :=
  getItem_removeItem_self _ "user"

/-! ## Facts about the list of suspended calls -/

theorem get?_append_length {α : Type} (l : List α) (x : α) (r : List α) :
    (l ++ x :: r).get? l.length = some x := by
  induction l with
  | nil => rfl
  | cons a l ih => simpa using ih

theorem eraseIdx_append_length {α : Type} (l : List α) (x : α) (r : List α) :
    (l ++ x :: r).eraseIdx l.length = l ++ r := by
  induction l with
  | nil => rfl
  | cons a l ih => simpa using ih

/-! ## Facts about the interceptor and the flag -/

theorem responseError_login (e : AxiosError) (b : Browser) :
    responseError "/api/auth/login" e b = b := by
  have h : includes "/api/auth/login" "/api/auth/login" = true := by
    simp [includes]
  simp [responseError, h]

theorem responseError_register (e : AxiosError) (b : Browser) :
    responseError "/api/auth/register" e b = b := by
  have h : includes "/api/auth/register" "/api/auth/register" = true := by
    simp [includes]
  simp [responseError, h]

theorem truthy_iff (t : Option String) : truthy t = true ↔ ∃ s, t = some s ∧ s ≠ "" := by
  cases t with
  | none => simp [truthy]
  | some s => simp [truthy]

theorem isAuthenticated_iff (b : Browser) :
    isAuthenticated b = true ↔ (∃ t, b.token = some t ∧ t ≠ "") ∧ ∃ u, b.user = some u := by
  simp [isAuthenticated, truthy_iff, Option.isSome_iff_exists]


/-! ## Derived rules of the scheduler -/

theorem spawn_fetchUserCall (id : Nat) (w : World) :
    spawn id fetchUserCall w = { w with inflight := w.inflight ++ [(id, fetchUserCall)] } := rfl

theorem spawn_loginCall (id : Nat) (email password : String) (w : World) :
    spawn id (loginCall email password) w
      = { w with inflight := w.inflight ++ [(id, loginCall email password)] } := rfl

theorem spawn_registerCall (id : Nat) (email password fullName : String) (w : World) :
    spawn id (registerCall email password fullName) w
      = { w with inflight := w.inflight ++ [(id, registerCall email password fullName)] } := rfl

theorem settle_append (b : Browser) (l : List (Nat × Async Outcome)) (id : Nat)
    (t : Async Outcome) (rest : List (Nat × Async Outcome)) (ret : List (Nat × Outcome))
    (r : Response) :
    settle l.length r ⟨b, l ++ (id, t) :: rest, ret⟩ =
      match resume t r with
      | none => ⟨b, l ++ (id, t) :: rest, ret⟩
      | some t1 => spawn id t1 ⟨b, l ++ rest, ret⟩ := by
  simp only [settle, get?_append_length, eraseIdx_append_length]

theorem settle_fetchUser_ok (b : Browser) (l : List (Nat × Async Outcome)) (id : Nat)
    (rest : List (Nat × Async Outcome)) (ret : List (Nat × Outcome)) (p : Profile) :
    settle l.length (.getMe (.ok p)) ⟨b, l ++ (id, fetchUserCall) :: rest, ret⟩
      = ⟨profileStored p b, l ++ rest, ret ++ [(id, none)]⟩ := by
  rw [settle_append]; rfl

theorem settle_fetchUser_error (b : Browser) (l : List (Nat × Async Outcome)) (id : Nat)
    (rest : List (Nat × Async Outcome)) (ret : List (Nat × Outcome)) (e : AxiosError) :
    settle l.length (.getMe (.error e)) ⟨b, l ++ (id, fetchUserCall) :: rest, ret⟩
      = ⟨fetchRejected e b, l ++ rest, ret ++ [(id, none)]⟩ := by
  rw [settle_append]; rfl

theorem settle_login_ok (b : Browser) (l : List (Nat × Async Outcome)) (id : Nat)
    (email password : String) (rest : List (Nat × Async Outcome)) (ret : List (Nat × Outcome))
    (accessToken : String) :
    settle l.length (.postLogin (.ok accessToken))
        ⟨b, l ++ (id, loginCall email password) :: rest, ret⟩
      = ⟨tokenStored accessToken b, (l ++ rest) ++ [(id, loginFetching)], ret⟩ := by
  rw [settle_append]; rfl

theorem settle_login_error (b : Browser) (l : List (Nat × Async Outcome)) (id : Nat)
    (email password : String) (rest : List (Nat × Async Outcome)) (ret : List (Nat × Outcome))
    (e : AxiosError) :
    settle l.length (.postLogin (.error e))
        ⟨b, l ++ (id, loginCall email password) :: rest, ret⟩
      = ⟨b, l ++ rest,
          ret ++ [(id, some { success := false, error := some (detailOr e "Login failed") })]⟩ := by
  rw [settle_append]
  show (⟨responseError "/api/auth/login" e b, _, _⟩ : World) = _
  rw [responseError_login]

theorem settle_loginFetching_ok (b : Browser) (l : List (Nat × Async Outcome)) (id : Nat)
    (rest : List (Nat × Async Outcome)) (ret : List (Nat × Outcome)) (p : Profile) :
    settle l.length (.getMe (.ok p)) ⟨b, l ++ (id, loginFetching) :: rest, ret⟩
      = ⟨profileStored p b, l ++ rest,
          ret ++ [(id, some { success := true, error := none })]⟩ := by
  rw [settle_append]; rfl

theorem settle_loginFetching_error (b : Browser) (l : List (Nat × Async Outcome)) (id : Nat)
    (rest : List (Nat × Async Outcome)) (ret : List (Nat × Outcome)) (e : AxiosError) :
    settle l.length (.getMe (.error e)) ⟨b, l ++ (id, loginFetching) :: rest, ret⟩
      = ⟨fetchRejected e b, l ++ rest,
          ret ++ [(id, some { success := true, error := none })]⟩ := by
  rw [settle_append]; rfl

theorem settle_register_ok (b : Browser) (l : List (Nat × Async Outcome)) (id : Nat)
    (email password fullName : String) (rest : List (Nat × Async Outcome))
    (ret : List (Nat × Outcome)) :
    settle l.length (.postRegister (.ok ()))
        ⟨b, l ++ (id, registerCall email password fullName) :: rest, ret⟩
      = ⟨b, (l ++ rest) ++ [(id, loginCall email password)], ret⟩ := by
  rw [settle_append]; rfl

theorem settle_register_error (b : Browser) (l : List (Nat × Async Outcome)) (id : Nat)
    (email password fullName : String) (rest : List (Nat × Async Outcome))
    (ret : List (Nat × Outcome)) (e : AxiosError) :
    settle l.length (.postRegister (.error e))
        ⟨b, l ++ (id, registerCall email password fullName) :: rest, ret⟩
      = ⟨b, l ++ rest,
          ret ++ [(id, some { success := false,
                              error := some (detailOr e "Registration failed") })]⟩ := by
  rw [settle_append]
  show (⟨responseError "/api/auth/register" e b, _, _⟩ : World) = _
  rw [responseError_register]

theorem effect_of_eq {old : Option String} {w : World} (h : w.browser.token = old) :
    effect old w = w := by
  simp [effect, h]

theorem effect_of_token_none {old : Option String} {w : World} (h : w.browser.token = none) :
    effect old w = if old = none then w else { w with browser := setLoading false w.browser } := by
  by_cases ho : old = none
  · simp [effect, h, ho]
  · have ho2 : ¬ none = old := fun hh => ho hh.symm
    simp [effect, effectBody, h, ho, ho2, truthy]

theorem fetchRejected_token (e : AxiosError) (b : Browser) : (fetchRejected e b).token = none := rfl

theorem fetchRejected_user (e : AxiosError) (b : Browser) : (fetchRejected e b).user = none := rfl

theorem fetchRejected_loading (e : AxiosError) (b : Browser) :
    (fetchRejected e b).loading = false := rfl

theorem fetchRejected_getItem_token (e : AxiosError) (b : Browser) :
    getItem (fetchRejected e b).localStorage "token" = none :=
  getItem_token_cleared _

theorem fetchRejected_getItem_user (e : AxiosError) (b : Browser) :
    getItem (fetchRejected e b).localStorage "user" = none :=
  getItem_user_cleared _


theorem mount_of_truthy {ls : LocalStorage} (pathname : String) {t : String}
    (hstored : getItem ls "token" = some t) (hne : t ≠ "") :
    mount ls pathname =
      ⟨{ user := none, loading := true, token := some t, localStorage := ls,
         pathname := pathname, href := none }, [(0, fetchUserCall)], []⟩ := by
  have ht : truthy (some t) = true := by simp [truthy, hne]
  simp only [mount, effectBody, hstored, ht, if_true, spawn_fetchUserCall, List.nil_append]

theorem step_settle_initial_fetch_error {ls : LocalStorage} (pathname : String) {t : String}
    (e : AxiosError) (hstored : getItem ls "token" = some t) (hne : t ≠ "") :
    step (mount ls pathname) (.settle 0 (.getMe (.error e))) =
      ⟨setLoading false (fetchRejected e
          { user := none, loading := true, token := some t, localStorage := ls,
            pathname := pathname, href := none }), [], [(0, none)]⟩ := by
  rw [mount_of_truthy pathname hstored hne]
  have h := settle_fetchUser_error
    { user := none, loading := true, token := some t, localStorage := ls,
      pathname := pathname, href := none } [] 0 [] [] e
  simp only [List.length_nil, List.nil_append] at h
  simp only [step, handle, h]
  rw [effect_of_token_none (fetchRejected_token _ _)]
  simp

/-! ## Session manager -/

/-- C1: in every session state reached from the first render by any sequence of
events (calls of login, register, logout, fetchUser, and requests settling
either way), `isAuthenticated` is true exactly when the in-memory token is
present (not null, not empty) and the in-memory user is present. -/
theorem isAuthenticated_iff_token_and_user (ls : LocalStorage) (pathname : String)
    (evs : List Event) :
    isAuthenticated (run (mount ls pathname) evs).browser = true ↔
      (∃ t, (run (mount ls pathname) evs).browser.token = some t ∧ t ≠ "") ∧
        ∃ u, (run (mount ls pathname) evs).browser.user = some u :=
  isAuthenticated_iff _

/-- C2: when a (non-empty) token is persisted, the first render issues exactly
one profile fetch, and when that fetch is rejected, with whatever error, the
session ends with token and user absent, `isAuthenticated` false, `loading`
false, no request outstanding, and neither `token` nor `user` in the store. -/
theorem init_failed_fetch_clears_session (ls : LocalStorage) (pathname t : String)
    (e : AxiosError) (hstored : getItem ls "token" = some t) (hne : t ≠ "") :
    (mount ls pathname).inflight.length = 1 ∧
    (step (mount ls pathname) (.settle 0 (.getMe (.error e)))).browser.token = none ∧
    (step (mount ls pathname) (.settle 0 (.getMe (.error e)))).browser.user = none ∧
    isAuthenticated (step (mount ls pathname) (.settle 0 (.getMe (.error e)))).browser = false ∧
    (step (mount ls pathname) (.settle 0 (.getMe (.error e)))).browser.loading = false ∧
    (step (mount ls pathname) (.settle 0 (.getMe (.error e)))).inflight = [] ∧
    getItem (step (mount ls pathname) (.settle 0 (.getMe (.error e)))).browser.localStorage
      "token" = none ∧
    getItem (step (mount ls pathname) (.settle 0 (.getMe (.error e)))).browser.localStorage
      "user" = none := by
  rw [step_settle_initial_fetch_error pathname e hstored hne]
  refine ⟨?_, rfl, rfl, rfl, rfl, rfl, ?_, ?_⟩
  · rw [mount_of_truthy pathname hstored hne]; rfl
  · exact fetchRejected_getItem_token _ _
  · exact fetchRejected_getItem_user _ _

/-- Witness of C2: a stored token `tok`, the fetch rejected with status 401 on `/dashboard`. -/
theorem init_failed_fetch_clears_session_witness :
    (mount [("token", "tok")] "/dashboard").inflight.length = 1 ∧
    (step (mount [("token", "tok")] "/dashboard")
      (.settle 0 (.getMe (.error ⟨some 401, none⟩)))).browser.token = none ∧
    (step (mount [("token", "tok")] "/dashboard")
      (.settle 0 (.getMe (.error ⟨some 401, none⟩)))).browser.user = none ∧
    isAuthenticated (step (mount [("token", "tok")] "/dashboard")
      (.settle 0 (.getMe (.error ⟨some 401, none⟩)))).browser = false ∧
    (step (mount [("token", "tok")] "/dashboard")
      (.settle 0 (.getMe (.error ⟨some 401, none⟩)))).browser.loading = false ∧
    (step (mount [("token", "tok")] "/dashboard")
      (.settle 0 (.getMe (.error ⟨some 401, none⟩)))).inflight = [] ∧
    getItem (step (mount [("token", "tok")] "/dashboard")
      (.settle 0 (.getMe (.error ⟨some 401, none⟩)))).browser.localStorage "token" = none ∧
    getItem (step (mount [("token", "tok")] "/dashboard")
      (.settle 0 (.getMe (.error ⟨some 401, none⟩)))).browser.localStorage "user" = none :=
  init_failed_fetch_clears_session [("token", "tok")] "/dashboard" "tok" ⟨some 401, none⟩
    (by decide) (by decide)


theorem step_login (w : World) (id : Nat) (email password : String) :
    step w (.login id email password)
      = ⟨w.browser, w.inflight ++ [(id, loginCall email password)], w.returned⟩ := by
  simp only [step, handle, spawn_loginCall]
  exact effect_of_eq rfl

theorem step_register (w : World) (id : Nat) (email password fullName : String) :
    step w (.register id email password fullName)
      = ⟨w.browser, w.inflight ++ [(id, registerCall email password fullName)], w.returned⟩ := by
  simp only [step, handle, spawn_registerCall]
  exact effect_of_eq rfl

theorem step_fetchUser (w : World) (id : Nat) :
    step w (.fetchUser id) = ⟨w.browser, w.inflight ++ [(id, fetchUserCall)], w.returned⟩ := by
  simp only [step, handle, spawn_fetchUserCall]
  exact effect_of_eq rfl

theorem step_logout (w : World) :
    step w .logout =
      if w.browser.token = none then ⟨logout w.browser, w.inflight, w.returned⟩
      else ⟨setLoading false (logout w.browser), w.inflight, w.returned⟩ := by
  simp only [step, handle]
  rw [effect_of_token_none (show (logout w.browser).token = none from rfl)]

theorem effect_mk_same (b : Browser) (l : List (Nat × Async Outcome))
    (r : List (Nat × Outcome)) : effect b.token ⟨b, l, r⟩ = ⟨b, l, r⟩ :=
  effect_of_eq rfl

theorem logout_logout (b : Browser) : logout (logout b) = logout b := by
  simp [logout, removeItem_session_twice]

theorem logout_setLoading_logout (b : Browser) :
    logout (setLoading false (logout b)) = setLoading false (logout b) := by
  simp [logout, setLoading, removeItem_session_twice]

/-- The session after `login` got its token: the token is stored, the call waits
for its profile fetch, and the hook may have issued a fetch of its own. -/
theorem step_settle_login_ok (w : World) (id : Nat) (email password accessToken : String) :
    ∃ b2 rest2,
      step (step w (.login id email password))
          (.settle w.inflight.length (.postLogin (.ok accessToken)))
        = ⟨b2, w.inflight ++ (id, loginFetching) :: rest2, w.returned⟩ ∧
      b2.token = some accessToken ∧ b2.user = w.browser.user ∧
      b2.localStorage = setItem w.browser.localStorage "token" accessToken := by
  rw [step_login]
  have h := settle_login_ok w.browser w.inflight id email password [] w.returned accessToken
  simp only [step, handle, h, List.append_nil]
  by_cases hsame : some accessToken = w.browser.token
  · exact ⟨tokenStored accessToken w.browser, [],
      effect_of_eq (by simpa [tokenStored] using hsame), rfl, rfl, rfl⟩
  · by_cases ht : truthy (some accessToken) = true
    · refine ⟨tokenStored accessToken w.browser, [(0, fetchUserCall)], ?_, rfl, rfl, rfl⟩
      simp [effect, effectBody, tokenStored, hsame, ht, spawn_fetchUserCall]
    · refine ⟨setLoading false (tokenStored accessToken w.browser), [], ?_, rfl, rfl, rfl⟩
      simp [effect, effectBody, tokenStored, hsame, ht]


/-- C3, as stated, fails: on a fresh session the login endpoint answers with a
token, the profile fetch awaited by `login` is then rejected, and `login`
still returns `success: true` while token and user are absent. -/
theorem login_success_without_profile :
    (run (mount [] "/login")
        [.login 1 "a@b.c" "secret", .settle 0 (.postLogin (.ok "tok")),
          .settle 0 (.getMe (.error ⟨some 401, some "Could not validate credentials"⟩))]).returned
      = [(1, some { success := true, error := none })] ∧
    isAuthenticated (run (mount [] "/login")
        [.login 1 "a@b.c" "secret", .settle 0 (.postLogin (.ok "tok")),
          .settle 0 (.getMe (.error ⟨some 401, some "Could not validate credentials"⟩))]).browser
      = false ∧
    (run (mount [] "/login")
        [.login 1 "a@b.c" "secret", .settle 0 (.postLogin (.ok "tok")),
          .settle 0 (.getMe (.error ⟨some 401, some "Could not validate credentials"⟩))]).browser.token
      = none ∧
    (run (mount [] "/login")
        [.login 1 "a@b.c" "secret", .settle 0 (.postLogin (.ok "tok")),
          .settle 0 (.getMe (.error ⟨some 401, some "Could not validate credentials"⟩))]).browser.user
      = none := by
  decide

/-- C3, amended: when the login endpoint answers with a token, `login` returns
nothing until its profile fetch settles and then returns `success: true`
whichever way the fetch went. If the fetch is fulfilled, the session holds the
returned token and the fetched user at that moment, so `isAuthenticated` is
true for a non-empty token; if it is rejected, token and user are absent and
`isAuthenticated` is false. -/
theorem login_returns_success_once_fetch_settles (w : World) (id : Nat)
    (email password accessToken : String) (p : Profile) (e : AxiosError) :
    (step (step w (.login id email password))
        (.settle w.inflight.length (.postLogin (.ok accessToken)))).returned = w.returned ∧
    (step (step (step w (.login id email password))
        (.settle w.inflight.length (.postLogin (.ok accessToken))))
        (.settle w.inflight.length (.getMe (.ok p)))).returned
      = w.returned ++ [(id, some { success := true, error := none })] ∧
    (step (step (step w (.login id email password))
        (.settle w.inflight.length (.postLogin (.ok accessToken))))
        (.settle w.inflight.length (.getMe (.ok p)))).browser.token = some accessToken ∧
    (step (step (step w (.login id email password))
        (.settle w.inflight.length (.postLogin (.ok accessToken))))
        (.settle w.inflight.length (.getMe (.ok p)))).browser.user = some p ∧
    isAuthenticated (step (step (step w (.login id email password))
        (.settle w.inflight.length (.postLogin (.ok accessToken))))
        (.settle w.inflight.length (.getMe (.ok p)))).browser = (accessToken != "") ∧
    (step (step (step w (.login id email password))
        (.settle w.inflight.length (.postLogin (.ok accessToken))))
        (.settle w.inflight.length (.getMe (.error e)))).returned
      = w.returned ++ [(id, some { success := true, error := none })] ∧
    (step (step (step w (.login id email password))
        (.settle w.inflight.length (.postLogin (.ok accessToken))))
        (.settle w.inflight.length (.getMe (.error e)))).browser.token = none ∧
    (step (step (step w (.login id email password))
        (.settle w.inflight.length (.postLogin (.ok accessToken))))
        (.settle w.inflight.length (.getMe (.error e)))).browser.user = none ∧
    isAuthenticated (step (step (step w (.login id email password))
        (.settle w.inflight.length (.postLogin (.ok accessToken))))
        (.settle w.inflight.length (.getMe (.error e)))).browser = false := by
  obtain ⟨b2, rest2, hw2, htok, _, _⟩ := step_settle_login_ok w id email password accessToken
  rw [hw2]
  have hok : step ⟨b2, w.inflight ++ (id, loginFetching) :: rest2, w.returned⟩
      (.settle w.inflight.length (.getMe (.ok p)))
      = ⟨profileStored p b2, w.inflight ++ rest2,
          w.returned ++ [(id, some { success := true, error := none })]⟩ := by
    simp only [step, handle, settle_loginFetching_ok]
    exact effect_of_eq (by simp [profileStored, setLoading, htok])
  have herr : step ⟨b2, w.inflight ++ (id, loginFetching) :: rest2, w.returned⟩
      (.settle w.inflight.length (.getMe (.error e)))
      = ⟨setLoading false (fetchRejected e b2), w.inflight ++ rest2,
          w.returned ++ [(id, some { success := true, error := none })]⟩ := by
    simp only [step, handle, settle_loginFetching_error]
    rw [effect_of_token_none (fetchRejected_token _ _)]
    simp [htok]
  rw [hok, herr]
  refine ⟨rfl, rfl, ?_, rfl, ?_, rfl, rfl, rfl, rfl⟩
  · simp [profileStored, setLoading, htok]
  · simp [isAuthenticated, profileStored, setLoading, htok, truthy]

/-- C4: when the login request is rejected, `login` returns `success: false`
with the server's detail message when there is a non-empty one and with
"Login failed" otherwise; the call and its failure leave the browser state
(in-memory token and user, `localStorage`, everything else) as before the
call, and leave no request outstanding. -/
theorem login_failure_reports_and_mutates_nothing (w : World) (id : Nat)
    (email password : String) (e : AxiosError) :
    (step (step w (.login id email password))
        (.settle w.inflight.length (.postLogin (.error e)))).returned
      = w.returned ++
          [(id, some { success := false,
                       error := some (match e.detail with
                         | some d => if d = "" then "Login failed" else d
                         | none => "Login failed") })] ∧
    (step w (.login id email password)).browser = w.browser ∧
    (step (step w (.login id email password))
        (.settle w.inflight.length (.postLogin (.error e)))).browser = w.browser ∧
    (step (step w (.login id email password))
        (.settle w.inflight.length (.postLogin (.error e)))).inflight = w.inflight := by
  have hstep : step (step w (.login id email password))
        (.settle w.inflight.length (.postLogin (.error e)))
      = ⟨w.browser, w.inflight,
          w.returned ++
            [(id, some { success := false, error := some (detailOr e "Login failed") })]⟩ := by
    rw [step_login]
    have h := settle_login_error w.browser w.inflight id email password [] w.returned e
    simp only [step, handle, h, List.append_nil, effect_mk_same]
  rw [hstep, step_login]
  refine ⟨?_, rfl, rfl, rfl⟩
  simp only [detailOr]
  cases e.detail with
  | none => rfl
  | some d => by_cases hd : d = "" <;> simp [hd]

/-- C5: a fulfilled registration request changes nothing in the browser state
and turns the call into `login` with the same email and password under the
same label, so whatever that login returns is what `register` returns; a
rejected one issues no login request, changes nothing in the browser state and
returns `success: false` with the server's detail message or
"Registration failed". -/
theorem register_then_login (w : World) (id : Nat) (email password fullName : String)
    (e : AxiosError) :
    (step w (.register id email password fullName)).browser = w.browser ∧
    step (step w (.register id email password fullName))
        (.settle w.inflight.length (.postRegister (.ok ())))
      = step w (.login id email password) ∧
    (∀ evs : List Event,
      run (step (step w (.register id email password fullName))
          (.settle w.inflight.length (.postRegister (.ok ())))) evs
        = run (step w (.login id email password)) evs) ∧
    (step (step w (.register id email password fullName))
        (.settle w.inflight.length (.postRegister (.error e)))).returned
      = w.returned ++
          [(id, some { success := false,
                       error := some (match e.detail with
                         | some d => if d = "" then "Registration failed" else d
                         | none => "Registration failed") })] ∧
    (step (step w (.register id email password fullName))
        (.settle w.inflight.length (.postRegister (.error e)))).inflight = w.inflight ∧
    (step (step w (.register id email password fullName))
        (.settle w.inflight.length (.postRegister (.error e)))).browser = w.browser := by
  have hok : step (step w (.register id email password fullName))
        (.settle w.inflight.length (.postRegister (.ok ())))
      = step w (.login id email password) := by
    rw [step_register, step_login]
    have h := settle_register_ok w.browser w.inflight id email password fullName [] w.returned
    simp only [step, handle, h, List.append_nil]
    exact effect_of_eq rfl
  refine ⟨by rw [step_register], hok, fun evs => by rw [hok], ?_⟩
  have herr : step (step w (.register id email password fullName))
        (.settle w.inflight.length (.postRegister (.error e)))
      = ⟨w.browser, w.inflight,
          w.returned ++
            [(id, some { success := false,
                         error := some (detailOr e "Registration failed") })]⟩ := by
    rw [step_register]
    have h := settle_register_error w.browser w.inflight id email password fullName [] w.returned e
    simp only [step, handle, h, List.append_nil, effect_mk_same]
  rw [herr]
  refine ⟨?_, rfl, rfl⟩
  simp only [detailOr]
  cases e.detail with
  | none => rfl
  | some d => by_cases hd : d = "" <;> simp [hd]

/-- C6: from every session state, `logout` yields, in one synchronous step, a
state with the in-memory token and user absent and neither `token` nor `user`
in `localStorage`, hence with `isAuthenticated` false; the same holds after
the render that follows, and no request is issued. -/
theorem logout_clears_session (w : World) :
    (logout w.browser).token = none ∧ (logout w.browser).user = none ∧
    getItem (logout w.browser).localStorage "token" = none ∧
    getItem (logout w.browser).localStorage "user" = none ∧
    isAuthenticated (logout w.browser) = false ∧
    (step w .logout).browser.token = none ∧ (step w .logout).browser.user = none ∧
    getItem (step w .logout).browser.localStorage "token" = none ∧
    getItem (step w .logout).browser.localStorage "user" = none ∧
    isAuthenticated (step w .logout).browser = false ∧
    (step w .logout).inflight = w.inflight := by
  refine ⟨rfl, rfl, getItem_token_cleared _, getItem_user_cleared _, rfl, ?_⟩
  rw [step_logout]
  split_ifs
  · exact ⟨rfl, rfl, getItem_token_cleared _, getItem_user_cleared _, rfl, rfl⟩
  · exact ⟨rfl, rfl, getItem_token_cleared _, getItem_user_cleared _, rfl, rfl⟩

/-- C7: `logout` is idempotent, as a function on the browser state and as an
event followed by its render: a second call yields the same state as the
first in every field. `logout` is a total function: it has no failure case. -/
theorem logout_idempotent (w : World) :
    logout (logout w.browser) = logout w.browser ∧
    step (step w .logout) .logout = step w .logout := by
  refine ⟨logout_logout _, ?_⟩
  rw [step_logout w]
  split_ifs with h
  · rw [step_logout, if_pos (show (logout w.browser).token = none from rfl)]
    simp only [logout_logout]
  · rw [step_logout, if_pos (show (setLoading false (logout w.browser)).token = none from rfl)]
    simp only [logout_setLoading_logout]


/-- C8, as stated, fails: with a stored token the first render issues a
profile fetch, `logout` is called, and the fetch is then fulfilled; the late
profile is written to the in-memory user and to the `user` entry of
`localStorage`, so the state is not the state `logout` left. -/
theorem late_fetch_success_applied_after_logout :
    (run (mount [("token", "tok")] "/dashboard") [.logout]).browser.user = none ∧
    getItem (run (mount [("token", "tok")] "/dashboard") [.logout]).browser.localStorage "user"
      = none ∧
    (run (mount [("token", "tok")] "/dashboard")
        [.logout, .settle 0 (.getMe (.ok ⟨"7", "a@b.c", "Ann"⟩))]).browser.user
      = some ⟨"7", "a@b.c", "Ann"⟩ ∧
    getItem (run (mount [("token", "tok")] "/dashboard")
        [.logout, .settle 0 (.getMe (.ok ⟨"7", "a@b.c", "Ann"⟩))]).browser.localStorage "user"
      = some (JSON_stringify ⟨"7", "a@b.c", "Ann"⟩) := by
  decide

/-- C8, amended: when `fetchUser` is issued, `logout` is then called and the
request is fulfilled afterwards, the late profile is applied: the in-memory
user and the `user` entry of `localStorage` hold it and `loading` is false;
the token stays absent in memory and in `localStorage`, so `isAuthenticated`
stays false. -/
theorem late_fetch_after_logout_keeps_token_absent (w : World) (id : Nat) (p : Profile) :
    (step (step (step w (.fetchUser id)) .logout)
        (.settle w.inflight.length (.getMe (.ok p)))).browser.user = some p ∧
    getItem (step (step (step w (.fetchUser id)) .logout)
        (.settle w.inflight.length (.getMe (.ok p)))).browser.localStorage "user"
      = some (JSON_stringify p) ∧
    (step (step (step w (.fetchUser id)) .logout)
        (.settle w.inflight.length (.getMe (.ok p)))).browser.loading = false ∧
    (step (step (step w (.fetchUser id)) .logout)
        (.settle w.inflight.length (.getMe (.ok p)))).browser.token = none ∧
    getItem (step (step (step w (.fetchUser id)) .logout)
        (.settle w.inflight.length (.getMe (.ok p)))).browser.localStorage "token" = none ∧
    isAuthenticated (step (step (step w (.fetchUser id)) .logout)
        (.settle w.inflight.length (.getMe (.ok p)))).browser = false := by
  have hlate : ∀ b : Browser, b.token = none → getItem b.localStorage "token" = none →
      step ⟨b, w.inflight ++ [(id, fetchUserCall)], w.returned⟩
          (.settle w.inflight.length (.getMe (.ok p)))
        = ⟨profileStored p b, w.inflight, w.returned ++ [(id, none)]⟩ := by
    intro b _ _
    have h := settle_fetchUser_ok b w.inflight id [] w.returned p
    simp only [step, handle, h, List.append_nil]
    exact effect_of_eq rfl
  have hprops : ∀ b : Browser, b.token = none → getItem b.localStorage "token" = none →
      (profileStored p b).user = some p ∧
      getItem (profileStored p b).localStorage "user" = some (JSON_stringify p) ∧
      (profileStored p b).loading = false ∧ (profileStored p b).token = none ∧
      getItem (profileStored p b).localStorage "token" = none ∧
      isAuthenticated (profileStored p b) = false := by
    intro b hb hs
    refine ⟨rfl, getItem_setItem_self _ _ _, rfl, hb, ?_, ?_⟩
    · show getItem (setItem b.localStorage "user" (JSON_stringify p)) "token" = none
      rw [getItem_setItem_of_ne _ _ (by decide : ("token" : String) ≠ "user")]
      exact hs
    · simp [isAuthenticated, profileStored, setLoading, hb, truthy]
  rw [step_fetchUser, step_logout]
  split_ifs
  · rw [hlate _ rfl (getItem_token_cleared _)]
    exact hprops _ rfl (getItem_token_cleared _)
  · rw [hlate _ rfl (getItem_token_cleared _)]
    exact hprops _ rfl (getItem_token_cleared _)

end AuthContext

namespace App

open AuthContext

/-! ## Route guards -/

/-- C9: `ProtectedRoute` renders the loading placeholder exactly when `loading`
is true, the children exactly when `loading` is false and `isAuthenticated` is
true, and a redirect to "/login" exactly when `loading` is false and
`isAuthenticated` is false; so whenever it renders children, `loading` is false
and token and user are both present. -/
theorem protectedRoute_gate {α : Type} (b : Browser) (children : α) :
    (ProtectedRoute b children = .loadingContainer ↔ b.loading = true) ∧
    (ProtectedRoute b children = .children children ↔
      b.loading = false ∧ isAuthenticated b = true) ∧
    (ProtectedRoute b children = .navigate "/login" ↔
      b.loading = false ∧ isAuthenticated b = false) ∧
    ((∃ c, ProtectedRoute b children = .children c) ↔
      b.loading = false ∧ (∃ t, b.token = some t ∧ t ≠ "") ∧ ∃ u, b.user = some u) := by
  rw [← isAuthenticated_iff]
  cases hl : b.loading <;> cases ha : isAuthenticated b <;> simp [ProtectedRoute, hl, ha]

/-- C10: `PublicRoute` renders the loading placeholder exactly when `loading`
is true, the children exactly when `loading` is false and `isAuthenticated` is
false, and a redirect to "/dashboard" exactly when `loading` is false and
`isAuthenticated` is true. -/
theorem publicRoute_gate {α : Type} (b : Browser) (children : α) :
    (PublicRoute b children = .loadingContainer ↔ b.loading = true) ∧
    (PublicRoute b children = .children children ↔
      b.loading = false ∧ isAuthenticated b = false) ∧
    (PublicRoute b children = .navigate "/dashboard" ↔
      b.loading = false ∧ isAuthenticated b = true) := by
  cases hl : b.loading <;> cases ha : isAuthenticated b <;> simp [PublicRoute, hl, ha]

end App

namespace Dashboard

open AuthContext

/-! ## Facts about the view computation -/

theorem slice_of_nat {α : Type} (l : List α) (a b : Nat) :
    slice l (a : Int) ((a : Int) + (b : Int)) = (l.drop a).take b := by
  have h1 : ¬ ((a : Int) < 0) := by omega
  have h2 : ¬ ((a : Int) + (b : Int) < 0) := by omega
  simp only [slice, h1, h2, if_false]
  by_cases hle : a ≤ l.length
  · have hk : (min (a : Int) (l.length : Int)).toNat = a := by omega
    have hf : (min ((a : Int) + (b : Int)) (l.length : Int) - min (a : Int) (l.length : Int)).toNat
        = min b (l.length - a) := by omega
    rw [hk, hf]
    apply List.take_eq_take.mpr
    simp
  · have hk : (min (a : Int) (l.length : Int)).toNat = l.length := by omega
    rw [hk, List.drop_of_length_le (Nat.le_refl _), List.drop_of_length_le (by omega)]
    simp

theorem totalPages_le_iff (t n m : Nat) (hn : 0 < n) : totalPages t n ≤ m ↔ t ≤ m * n := by
  have hq : (0 : ℚ) < (n : ℚ) := by exact_mod_cast hn
  rw [totalPages, Nat.ceil_le, div_le_iff₀ hq]
  exact_mod_cast Iff.rfl

theorem totalPages_eq_div (t n : Nat) (hn : 0 < n) : totalPages t n = (t + n - 1) / n := by
  apply le_antisymm
  · rw [totalPages_le_iff t n _ hn]
    have h := Nat.div_add_mod (t + n - 1) n
    have h2 := Nat.mod_lt (t + n - 1) hn
    have h3 : n * ((t + n - 1) / n) = (t + n - 1) / n * n := Nat.mul_comm _ _
    omega
  · rw [Nat.div_le_iff_le_mul_add_pred hn]
    have h : t ≤ totalPages t n * n := (totalPages_le_iff t n _ hn).mp (Nat.le_refl _)
    have h3 : n * totalPages t n = totalPages t n * n := Nat.mul_comm _ _
    omega

theorem filterResults_sublist (q : Query) (data : List VerificationRecord) :
    List.Sublist (filterResults q data) data := by
  unfold filterResults applySearchFilter applyTypeFilter
  split_ifs
  · exact (List.filter_sublist _).trans (List.filter_sublist _)
  · exact List.filter_sublist _
  · exact List.filter_sublist _
  · exact List.Sublist.refl _


/-! ## Activity query engine -/

/-- C11, as stated, fails for a query of white space only: with filter "all"
and the query " ", a text record is kept, although " " is not the empty
string and occurs neither in "text" nor in "ai". -/
theorem whitespace_query_keeps_record :
    filterResults ⟨"all", " ", 0, 10⟩ [⟨"1", "text", true, 1, "2024-05-01T10:00:00", none⟩]
      = [⟨"1", "text", true, 1, "2024-05-01T10:00:00", none⟩] ∧
    ¬ (("all" = "all" ∨ "text" = "all") ∧
        (" " = "" ∨ includes (toLowerCase "text") (toLowerCase " ") = true ∨
          includes "ai" (toLowerCase " ") = true)) := by
  decide

/-- C11, amended: the filtering step keeps, in the order of the snapshot,
exactly the records with (filterType = "all" or record.type = filterType) and
(searchQuery.trim() is empty, or lowercase(searchQuery), untrimmed, is a
substring of lowercase(record.type), or of "ai" when record.result is true and
of "human" otherwise). -/
theorem filterResults_eq_filter (q : Query) (data : List VerificationRecord) :
    filterResults q data =
      data.filter (fun r => decide
        ((q.filterType = "all" ∨ r.type = q.filterType) ∧
          (trim q.searchQuery = "" ∨
            includes (toLowerCase r.type) (toLowerCase q.searchQuery) = true ∨
            includes (if r.result then "ai" else "human") (toLowerCase q.searchQuery) = true))) := by
  unfold filterResults applySearchFilter applyTypeFilter
  by_cases h1 : q.filterType = "all" <;> by_cases h2 : trim q.searchQuery = ""
  · simp [h1, h2]
  · simp only [h1, h2, bne_self_eq_false, Bool.false_eq_true, if_false, bne_iff_ne, ne_eq,
      not_false_eq_true, if_true]
    apply List.filter_congr
    intro r _
    simp [matchesQuery]
  · simp only [h1, h2, bne_self_eq_false, Bool.false_eq_true, if_false, bne_iff_ne, ne_eq,
      not_false_eq_true, if_true]
    apply List.filter_congr
    intro r _
    by_cases h3 : r.type = q.filterType <;> simp [h1, h3]
  · simp only [h1, h2, bne_iff_ne, ne_eq, not_false_eq_true, if_true, List.filter_filter]
    apply List.filter_congr
    intro r _
    by_cases h3 : r.type = q.filterType <;> simp [matchesQuery, h1, h3]


/-- C12: for a page index that is not negative, the view has `totalResults`
equal to the length of the filtered list and `results` equal to the stretch of
the filtered list from index `currentPage * pageLimit` up to, but excluding,
`currentPage * pageLimit + pageLimit`, cut off at the end of the list; its
elements keep the order of the snapshot. -/
theorem computeView_page (q : Query) (data : List VerificationRecord)
    (hpage : 0 ≤ q.currentPage) :
    (computeView q data).totalResults = (filterResults q data).length ∧
    (computeView q data).results
      = ((filterResults q data).drop (q.currentPage.toNat * q.pageLimit)).take q.pageLimit ∧
    (∀ i : Nat, (computeView q data).results.get? i =
      if i < q.pageLimit then
        (filterResults q data).get? (q.currentPage.toNat * q.pageLimit + i)
      else none) ∧
    (computeView q data).results.length
      = min q.pageLimit ((filterResults q data).length - q.currentPage.toNat * q.pageLimit) ∧
    List.Sublist (computeView q data).results data := by
  have hres : (computeView q data).results
      = ((filterResults q data).drop (q.currentPage.toNat * q.pageLimit)).take q.pageLimit := by
    have hcast : q.currentPage * (q.pageLimit : Int)
        = ((q.currentPage.toNat * q.pageLimit : Nat) : Int) := by
      rw [Nat.cast_mul, Int.toNat_of_nonneg hpage]
    simp only [computeView, hcast]
    exact slice_of_nat _ _ _
  refine ⟨rfl, hres, ?_, ?_, ?_⟩
  · intro i
    rw [hres]
    by_cases hi : i < q.pageLimit
    · simp [hi, List.getElem?_take_of_lt, List.getElem?_drop]
    · simp [hi, List.getElem?_take_eq_none (Nat.le_of_not_lt hi)]
  · rw [hres]
    simp
  · rw [hres]
    exact ((List.take_sublist _ _).trans (List.drop_sublist _ _)).trans
      (filterResults_sublist q data)

/-- Witness of C12: the first page of size 10 of a snapshot of two records. -/
theorem computeView_page_witness :
    (computeView ⟨"all", "", 0, 10⟩
      [⟨"1", "text", true, 1, "2024-05-01T10:00:00", none⟩,
        ⟨"2", "image", false, 0, "2024-05-02T10:00:00", none⟩]).totalResults
      = (filterResults ⟨"all", "", 0, 10⟩
      [⟨"1", "text", true, 1, "2024-05-01T10:00:00", none⟩,
        ⟨"2", "image", false, 0, "2024-05-02T10:00:00", none⟩]).length ∧
    (computeView ⟨"all", "", 0, 10⟩
      [⟨"1", "text", true, 1, "2024-05-01T10:00:00", none⟩,
        ⟨"2", "image", false, 0, "2024-05-02T10:00:00", none⟩]).results
      = ((filterResults ⟨"all", "", 0, 10⟩
      [⟨"1", "text", true, 1, "2024-05-01T10:00:00", none⟩,
        ⟨"2", "image", false, 0, "2024-05-02T10:00:00", none⟩]).drop ((0 : Int).toNat * 10)).take 10 ∧
    (∀ i : Nat, (computeView ⟨"all", "", 0, 10⟩
      [⟨"1", "text", true, 1, "2024-05-01T10:00:00", none⟩,
        ⟨"2", "image", false, 0, "2024-05-02T10:00:00", none⟩]).results.get? i =
      if i < 10 then (filterResults ⟨"all", "", 0, 10⟩
      [⟨"1", "text", true, 1, "2024-05-01T10:00:00", none⟩,
        ⟨"2", "image", false, 0, "2024-05-02T10:00:00", none⟩]).get? ((0 : Int).toNat * 10 + i)
      else none) ∧
    (computeView ⟨"all", "", 0, 10⟩
      [⟨"1", "text", true, 1, "2024-05-01T10:00:00", none⟩,
        ⟨"2", "image", false, 0, "2024-05-02T10:00:00", none⟩]).results.length
      = min 10 ((filterResults ⟨"all", "", 0, 10⟩
      [⟨"1", "text", true, 1, "2024-05-01T10:00:00", none⟩,
        ⟨"2", "image", false, 0, "2024-05-02T10:00:00", none⟩]).length - (0 : Int).toNat * 10) ∧
    List.Sublist (computeView ⟨"all", "", 0, 10⟩
      [⟨"1", "text", true, 1, "2024-05-01T10:00:00", none⟩,
        ⟨"2", "image", false, 0, "2024-05-02T10:00:00", none⟩]).results
      [⟨"1", "text", true, 1, "2024-05-01T10:00:00", none⟩,
        ⟨"2", "image", false, 0, "2024-05-02T10:00:00", none⟩] :=
  computeView_page ⟨"all", "", 0, 10⟩
      [⟨"1", "text", true, 1, "2024-05-01T10:00:00", none⟩,
        ⟨"2", "image", false, 0, "2024-05-02T10:00:00", none⟩] (by decide)

/-- C13: for a positive page size (10, 20, 50 and 100 among them),
`totalPages` is the ceiling of `totalResults / pageLimit`: the least number
`m` of pages with `m * pageLimit ≥ totalResults`; it is 0 exactly when
`totalResults` is 0. -/
theorem totalPages_least (t n : Nat) (hn : 0 < n) :
    totalPages t n = Nat.ceil ((t : ℚ) / (n : ℚ)) ∧
    t ≤ totalPages t n * n ∧
    (∀ m : Nat, t ≤ m * n → totalPages t n ≤ m) ∧
    (totalPages t n = 0 ↔ t = 0) := by
  refine ⟨rfl, (totalPages_le_iff t n _ hn).mp (Nat.le_refl _),
    fun m hm => (totalPages_le_iff t n m hn).mpr hm, ?_⟩
  constructor
  · intro h
    have h1 : t ≤ totalPages t n * n := (totalPages_le_iff t n _ hn).mp (Nat.le_refl _)
    rw [h] at h1
    omega
  · intro h
    have h1 : totalPages t n ≤ 0 := (totalPages_le_iff t n 0 hn).mpr (by omega)
    omega

/-- Witness of C13: 25 results in pages of 10. -/
theorem totalPages_least_witness :
    totalPages 25 10 = Nat.ceil ((25 : ℚ) / (10 : ℚ)) ∧
    25 ≤ totalPages 25 10 * 10 ∧
    (∀ m : Nat, 25 ≤ m * 10 → totalPages 25 10 ≤ m) ∧
    (totalPages 25 10 = 0 ↔ 25 = 0) :=
  totalPages_least 25 10 (by decide)


theorem matchesQuery_ai (r : VerificationRecord)
    (htype : r.type = "text" ∨ r.type = "image" ∨ r.type = "video") :
    matchesQuery (toLowerCase "ai") r = r.result := by
  have h1 : includes (toLowerCase "text") (toLowerCase "ai") = false := by decide
  have h2 : includes (toLowerCase "image") (toLowerCase "ai") = false := by decide
  have h3 : includes (toLowerCase "video") (toLowerCase "ai") = false := by decide
  have h4 : includes "ai" (toLowerCase "ai") = true := by decide
  have h5 : includes "human" (toLowerCase "ai") = false := by decide
  unfold matchesQuery
  rcases htype with h | h | h <;> cases hr : r.result <;> simp [h, h1, h2, h3, h4, h5]

/-- C14: on a snapshot whose records all have type "text", "image" or "video",
the filter "all" with the query "ai" keeps exactly the records whose `result`
is true, in the order of the snapshot. -/
theorem filterResults_all_ai (data : List VerificationRecord) (currentPage : Int)
    (pageLimit : Nat)
    (htypes : ∀ r ∈ data, r.type = "text" ∨ r.type = "image" ∨ r.type = "video") :
    filterResults ⟨"all", "ai", currentPage, pageLimit⟩ data
      = data.filter (fun r => r.result) := by
  have ht : (trim "ai" != "") = true := by decide
  simp only [filterResults, applySearchFilter, applyTypeFilter, bne_self_eq_false,
    Bool.false_eq_true, if_false, ht, if_true]
  apply List.filter_congr
  intro r hr
  exact matchesQuery_ai r (htypes r hr)

/-- Witness of C14: the snapshot of a text record judged AI-generated and an
image record judged human yields, on page 0, the text record alone. -/
theorem filterResults_all_ai_witness :
    filterResults ⟨"all", "ai", 0, 10⟩
        [⟨"1", "text", true, 1, "2024-05-01T10:00:00", none⟩,
          ⟨"2", "image", false, 0, "2024-05-02T10:00:00", none⟩]
      = List.filter (fun r => r.result)
        [⟨"1", "text", true, 1, "2024-05-01T10:00:00", none⟩,
          ⟨"2", "image", false, 0, "2024-05-02T10:00:00", none⟩] ∧
    (computeView ⟨"all", "ai", 0, 10⟩
        [⟨"1", "text", true, 1, "2024-05-01T10:00:00", none⟩,
          ⟨"2", "image", false, 0, "2024-05-02T10:00:00", none⟩]).results
      = [⟨"1", "text", true, 1, "2024-05-01T10:00:00", none⟩] :=
  ⟨filterResults_all_ai _ 0 10 (by decide), by decide⟩

/-- C15: `handleFilterChange`, the `onChange` handler of the search input and
`handlePageLimitChange` each leave `currentPage` at 0, whatever it was, also
after the render that follows. -/
theorem handlers_reset_currentPage (w : World) (type value : String) (limit : Nat) :
    (handleFilterChange type w.ui).currentPage = 0 ∧
    (handleSearchChange value w.ui).currentPage = 0 ∧
    (handlePageLimitChange limit w.ui).currentPage = 0 ∧
    (step w (.filterChange type)).ui.currentPage = 0 ∧
    (step w (.searchChange value)).ui.currentPage = 0 ∧
    (step w (.pageLimitChange limit)).ui.currentPage = 0 := by
  refine ⟨rfl, rfl, rfl, ?_, ?_, ?_⟩ <;>
  · simp only [step, handle, effect, fetchActivityData]
    split_ifs <;> rfl

/-- C16: the Previous and Next handlers leave `filterType`, `searchQuery` and
`pageLimit` as they were, also after the render that follows. -/
theorem page_handlers_keep_query (w : World) :
    (handlePrevious w.ui).filterType = w.ui.filterType ∧
    (handlePrevious w.ui).searchQuery = w.ui.searchQuery ∧
    (handlePrevious w.ui).pageLimit = w.ui.pageLimit ∧
    (handleNext w.ui).filterType = w.ui.filterType ∧
    (handleNext w.ui).searchQuery = w.ui.searchQuery ∧
    (handleNext w.ui).pageLimit = w.ui.pageLimit ∧
    (step w .previous).ui.filterType = w.ui.filterType ∧
    (step w .previous).ui.searchQuery = w.ui.searchQuery ∧
    (step w .previous).ui.pageLimit = w.ui.pageLimit ∧
    (step w .next).ui.filterType = w.ui.filterType ∧
    (step w .next).ui.searchQuery = w.ui.searchQuery ∧
    (step w .next).ui.pageLimit = w.ui.pageLimit := by
  have hprev : (step w .previous).ui = handlePrevious w.ui := by
    simp only [step, handle, effect, fetchActivityData]
    split_ifs <;> rfl
  have hnext : (step w .next).ui = handleNext w.ui := by
    simp only [step, handle, effect, fetchActivityData]
    split_ifs <;> rfl
  rw [hprev, hnext]
  exact ⟨rfl, rfl, rfl, rfl, rfl, rfl, rfl, rfl, rfl, rfl, rfl, rfl⟩

/-- C17: when `totalPages > 0` and `currentPage` lies in `[0, totalPages - 1]`,
the page set by the Previous handler and the page set by the Next handler lie
in `[0, totalPages - 1]` again; and the page 0 set by the filter, search and
page-size handlers lies in `[0, n - 1]` for every positive number `n` of pages. -/
theorem page_handlers_stay_in_range (s : State) (type value : String) (limit : Nat)
    (hpages : 0 < totalPages s.totalResults s.pageLimit) (hlow : 0 ≤ s.currentPage)
    (hhigh : s.currentPage ≤ (totalPages s.totalResults s.pageLimit : Int) - 1) :
    (0 ≤ (handlePrevious s).currentPage ∧
      (handlePrevious s).currentPage ≤ (totalPages s.totalResults s.pageLimit : Int) - 1) ∧
    (0 ≤ (handleNext s).currentPage ∧
      (handleNext s).currentPage ≤ (totalPages s.totalResults s.pageLimit : Int) - 1) ∧
    (totalPages (handlePrevious s).totalResults (handlePrevious s).pageLimit
      = totalPages s.totalResults s.pageLimit) ∧
    (totalPages (handleNext s).totalResults (handleNext s).pageLimit
      = totalPages s.totalResults s.pageLimit) ∧
    (∀ n : Nat, 0 < n →
      (0 ≤ (handleFilterChange type s).currentPage ∧
        (handleFilterChange type s).currentPage ≤ (n : Int) - 1) ∧
      (0 ≤ (handleSearchChange value s).currentPage ∧
        (handleSearchChange value s).currentPage ≤ (n : Int) - 1) ∧
      (0 ≤ (handlePageLimitChange limit s).currentPage ∧
        (handlePageLimitChange limit s).currentPage ≤ (n : Int) - 1)) := by
  refine ⟨?_, ?_, rfl, rfl, ?_⟩
  · simp only [handlePrevious]
    omega
  · simp only [handleNext]
    omega
  · intro n hn
    simp only [handleFilterChange, handleSearchChange, handlePageLimitChange]
    omega

/-- Witness of C17: 25 results in pages of 10, on the second of the three pages. -/
theorem page_handlers_stay_in_range_witness :
    (0 ≤ (handlePrevious ⟨[], "", "all", 10, 1, 25⟩).currentPage ∧
      (handlePrevious ⟨[], "", "all", 10, 1, 25⟩).currentPage
        ≤ (totalPages (State.mk [] "" "all" 10 1 25).totalResults
            (State.mk [] "" "all" 10 1 25).pageLimit : Int) - 1) ∧
    (0 ≤ (handleNext ⟨[], "", "all", 10, 1, 25⟩).currentPage ∧
      (handleNext ⟨[], "", "all", 10, 1, 25⟩).currentPage
        ≤ (totalPages (State.mk [] "" "all" 10 1 25).totalResults
            (State.mk [] "" "all" 10 1 25).pageLimit : Int) - 1) ∧
    (totalPages (handlePrevious ⟨[], "", "all", 10, 1, 25⟩).totalResults
        (handlePrevious ⟨[], "", "all", 10, 1, 25⟩).pageLimit
      = totalPages (State.mk [] "" "all" 10 1 25).totalResults
          (State.mk [] "" "all" 10 1 25).pageLimit) ∧
    (totalPages (handleNext ⟨[], "", "all", 10, 1, 25⟩).totalResults
        (handleNext ⟨[], "", "all", 10, 1, 25⟩).pageLimit
      = totalPages (State.mk [] "" "all" 10 1 25).totalResults
          (State.mk [] "" "all" 10 1 25).pageLimit) ∧
    (∀ n : Nat, 0 < n →
      (0 ≤ (handleFilterChange "text" ⟨[], "", "all", 10, 1, 25⟩).currentPage ∧
        (handleFilterChange "text" ⟨[], "", "all", 10, 1, 25⟩).currentPage ≤ (n : Int) - 1) ∧
      (0 ≤ (handleSearchChange "ai" ⟨[], "", "all", 10, 1, 25⟩).currentPage ∧
        (handleSearchChange "ai" ⟨[], "", "all", 10, 1, 25⟩).currentPage ≤ (n : Int) - 1) ∧
      (0 ≤ (handlePageLimitChange 20 ⟨[], "", "all", 10, 1, 25⟩).currentPage ∧
        (handlePageLimitChange 20 ⟨[], "", "all", 10, 1, 25⟩).currentPage ≤ (n : Int) - 1)) :=
  page_handlers_stay_in_range ⟨[], "", "all", 10, 1, 25⟩ "text" "ai" 20
    (by rw [totalPages_eq_div _ _ (by decide)]; decide) (by decide)
    (by rw [totalPages_eq_div _ _ (by decide)]; decide)


/-! ## Refreshes of the activity list -/

theorem handle_of_handler (w : World) (ev : Event) (hev : ∀ i r, ev ≠ .settle i r) :
    (handle w ev).browser = w.browser ∧ (handle w ev).inflight = w.inflight ∧
    (handle w ev).ui.results = w.ui.results ∧
    (handle w ev).ui.totalResults = w.ui.totalResults := by
  cases ev with
  | settle i r => exact absurd rfl (hev i r)
  | _ => exact ⟨rfl, rfl, rfl, rfl⟩

theorem step_of_query_change (w : World) (ev : Event) (hev : ∀ i r, ev ≠ .settle i r)
    (hauth : isAuthenticated w.browser = true)
    (hchange : (handle w ev).ui.query ≠ w.ui.query) :
    step w ev = ⟨w.browser, (handle w ev).ui, w.inflight ++ [(handle w ev).ui.query]⟩ := by
  obtain ⟨hb, hi, _, _⟩ := handle_of_handler w ev hev
  simp only [step, effect, hchange, if_false, hb, hauth, if_true, fetchActivityData, hi]

theorem effect_of_query_eq {old : Query} {w : World} (h : w.ui.query = old) :
    effect old w = w := by
  simp [effect, h]

theorem step_settle_ok (w : World) (l : List Query) (q : Query) (rest : List Query) (i : Nat)
    (data : List VerificationRecord) (hinflight : w.inflight = l ++ q :: rest)
    (hi : i = l.length) :
    step w (.settle i (.ok data)) =
      ⟨w.browser,
        { w.ui with
          totalResults := (computeView q data).totalResults
          results := (computeView q data).results },
        l ++ rest⟩ := by
  subst hi
  simp only [step, handle, hinflight, get?_append_length, eraseIdx_append_length,
    fetchActivityDataSettled]
  exact effect_of_query_eq rfl

theorem step_settle_error (w : World) (i : Nat) (e : AxiosError) :
    (step w (.settle i (.error e))).ui = w.ui := by
  simp only [step, handle]
  cases w.inflight.get? i with
  | none => rw [effect_of_query_eq rfl]
  | some q =>
    simp only [fetchActivityDataSettled]
    have h : effect w.ui.query
        ⟨responseError "/api/results/?limit=1000&skip=0" e w.browser, w.ui,
          w.inflight.eraseIdx i⟩
        = ⟨responseError "/api/results/?limit=1000&skip=0" e w.browser, w.ui,
          w.inflight.eraseIdx i⟩ := effect_of_query_eq rfl
    rw [h]


/-- C18, as stated, fails: in an authenticated session the first render
issues one request for the records, and a change of the filter, without any
other event, issues a second one. -/
theorem filter_change_issues_request :
    (mount ⟨some ⟨"7", "a@b.c", "Ann"⟩, false, some "tok", [("token", "tok")], "/dashboard",
        none⟩).inflight.length = 1 ∧
    (step (mount ⟨some ⟨"7", "a@b.c", "Ann"⟩, false, some "tok", [("token", "tok")],
        "/dashboard", none⟩) (.filterChange "text")).inflight.length = 2 := by
  decide

/-- C18, amended: the view is a function of the response data and of the
query (filter, search, page, page size) that issued the request, and it is
only computed inside `fetchActivityData`: in an authenticated session every
handler that changes the query issues one new request carrying the new query,
leaves `results` and `totalResults` as they are, and the view computed from
that query and the data of the response is written when the request is
fulfilled. -/
theorem view_recomputed_by_refetch (w : World) (ev : Event)
    (data : List VerificationRecord) (hev : ∀ i r, ev ≠ .settle i r)
    (hauth : isAuthenticated w.browser = true)
    (hchange : (handle w ev).ui.query ≠ w.ui.query) :
    (step w ev).inflight = w.inflight ++ [(handle w ev).ui.query] ∧
    (step w ev).ui.results = w.ui.results ∧
    (step w ev).ui.totalResults = w.ui.totalResults ∧
    (step (step w ev) (.settle w.inflight.length (.ok data))).ui.results
      = (computeView (handle w ev).ui.query data).results ∧
    (step (step w ev) (.settle w.inflight.length (.ok data))).ui.totalResults
      = (computeView (handle w ev).ui.query data).totalResults ∧
    (step (step w ev) (.settle w.inflight.length (.ok data))).inflight = w.inflight := by
  obtain ⟨_, _, hr, ht⟩ := handle_of_handler w ev hev
  have h1 := step_of_query_change w ev hev hauth hchange
  have h2 := step_settle_ok (step w ev) w.inflight (handle w ev).ui.query [] w.inflight.length
    data (by rw [h1]) rfl
  rw [h2, h1]
  exact ⟨rfl, hr, ht, rfl, rfl, List.append_nil _⟩

/-- Witness of C18: the filter is changed to "text" on the freshly mounted
dashboard of an authenticated session, and the request is fulfilled with a
text record and an image record. -/
theorem view_recomputed_by_refetch_witness :
    (step (mount ⟨some ⟨"7", "a@b.c", "Ann"⟩, false, some "tok", [("token", "tok")],
        "/dashboard", none⟩) (.filterChange "text")).inflight
      = (mount ⟨some ⟨"7", "a@b.c", "Ann"⟩, false, some "tok", [("token", "tok")],
        "/dashboard", none⟩).inflight ++ [(handle (mount ⟨some ⟨"7", "a@b.c", "Ann"⟩, false, some "tok", [("token", "tok")],
        "/dashboard", none⟩) (.filterChange "text")).ui.query] ∧
    (step (mount ⟨some ⟨"7", "a@b.c", "Ann"⟩, false, some "tok", [("token", "tok")],
        "/dashboard", none⟩) (.filterChange "text")).ui.results
      = (mount ⟨some ⟨"7", "a@b.c", "Ann"⟩, false, some "tok", [("token", "tok")],
        "/dashboard", none⟩).ui.results ∧
    (step (mount ⟨some ⟨"7", "a@b.c", "Ann"⟩, false, some "tok", [("token", "tok")],
        "/dashboard", none⟩) (.filterChange "text")).ui.totalResults
      = (mount ⟨some ⟨"7", "a@b.c", "Ann"⟩, false, some "tok", [("token", "tok")],
        "/dashboard", none⟩).ui.totalResults ∧
    (step (step (mount ⟨some ⟨"7", "a@b.c", "Ann"⟩, false, some "tok", [("token", "tok")],
        "/dashboard", none⟩) (.filterChange "text"))
      (.settle (mount ⟨some ⟨"7", "a@b.c", "Ann"⟩, false, some "tok", [("token", "tok")],
        "/dashboard", none⟩).inflight.length
        (.ok [⟨"1", "text", true, 1, "2024-05-01T10:00:00", none⟩,
        ⟨"2", "image", false, 0, "2024-05-02T10:00:00", none⟩]))).ui.results
      = (computeView (handle (mount ⟨some ⟨"7", "a@b.c", "Ann"⟩, false, some "tok", [("token", "tok")],
        "/dashboard", none⟩) (.filterChange "text")).ui.query
        [⟨"1", "text", true, 1, "2024-05-01T10:00:00", none⟩,
        ⟨"2", "image", false, 0, "2024-05-02T10:00:00", none⟩]).results ∧
    (step (step (mount ⟨some ⟨"7", "a@b.c", "Ann"⟩, false, some "tok", [("token", "tok")],
        "/dashboard", none⟩) (.filterChange "text"))
      (.settle (mount ⟨some ⟨"7", "a@b.c", "Ann"⟩, false, some "tok", [("token", "tok")],
        "/dashboard", none⟩).inflight.length
        (.ok [⟨"1", "text", true, 1, "2024-05-01T10:00:00", none⟩,
        ⟨"2", "image", false, 0, "2024-05-02T10:00:00", none⟩]))).ui.totalResults
      = (computeView (handle (mount ⟨some ⟨"7", "a@b.c", "Ann"⟩, false, some "tok", [("token", "tok")],
        "/dashboard", none⟩) (.filterChange "text")).ui.query
        [⟨"1", "text", true, 1, "2024-05-01T10:00:00", none⟩,
        ⟨"2", "image", false, 0, "2024-05-02T10:00:00", none⟩]).totalResults ∧
    (step (step (mount ⟨some ⟨"7", "a@b.c", "Ann"⟩, false, some "tok", [("token", "tok")],
        "/dashboard", none⟩) (.filterChange "text"))
      (.settle (mount ⟨some ⟨"7", "a@b.c", "Ann"⟩, false, some "tok", [("token", "tok")],
        "/dashboard", none⟩).inflight.length
        (.ok [⟨"1", "text", true, 1, "2024-05-01T10:00:00", none⟩,
        ⟨"2", "image", false, 0, "2024-05-02T10:00:00", none⟩]))).inflight
      = (mount ⟨some ⟨"7", "a@b.c", "Ann"⟩, false, some "tok", [("token", "tok")],
        "/dashboard", none⟩).inflight :=
  view_recomputed_by_refetch (mount ⟨some ⟨"7", "a@b.c", "Ann"⟩, false, some "tok", [("token", "tok")],
        "/dashboard", none⟩) (.filterChange "text")
    [⟨"1", "text", true, 1, "2024-05-01T10:00:00", none⟩,
        ⟨"2", "image", false, 0, "2024-05-02T10:00:00", none⟩] (fun _ _ h => Event.noConfusion h) (by decide) (by decide)

/-- C19, as stated, fails: a first refresh is issued under the filter "all", the
filter is changed to "image" and a second refresh is issued, the second
response arrives, and then the first; the displayed records and the count are
those of the first request (both records, under "all"), not those of the second
(the image record alone), while the filter shown is "image". -/
theorem stale_response_applied :
    (run (mount ⟨some ⟨"7", "a@b.c", "Ann"⟩, false, some "tok", [("token", "tok")],
        "/dashboard", none⟩)
      [.filterChange "image",
        .settle 1 (.ok [⟨"1", "text", true, 1, "2024-05-01T10:00:00", none⟩,
          ⟨"2", "image", false, 0, "2024-05-02T10:00:00", none⟩])]).ui.results
      = [⟨"2", "image", false, 0, "2024-05-02T10:00:00", none⟩] ∧
    (run (mount ⟨some ⟨"7", "a@b.c", "Ann"⟩, false, some "tok", [("token", "tok")],
        "/dashboard", none⟩)
      [.filterChange "image",
        .settle 1 (.ok [⟨"1", "text", true, 1, "2024-05-01T10:00:00", none⟩,
          ⟨"2", "image", false, 0, "2024-05-02T10:00:00", none⟩]),
        .settle 0 (.ok [⟨"1", "text", true, 1, "2024-05-01T10:00:00", none⟩,
          ⟨"2", "image", false, 0, "2024-05-02T10:00:00", none⟩])]).ui.results
      = [⟨"1", "text", true, 1, "2024-05-01T10:00:00", none⟩,
          ⟨"2", "image", false, 0, "2024-05-02T10:00:00", none⟩] ∧
    (run (mount ⟨some ⟨"7", "a@b.c", "Ann"⟩, false, some "tok", [("token", "tok")],
        "/dashboard", none⟩)
      [.filterChange "image",
        .settle 1 (.ok [⟨"1", "text", true, 1, "2024-05-01T10:00:00", none⟩,
          ⟨"2", "image", false, 0, "2024-05-02T10:00:00", none⟩]),
        .settle 0 (.ok [⟨"1", "text", true, 1, "2024-05-01T10:00:00", none⟩,
          ⟨"2", "image", false, 0, "2024-05-02T10:00:00", none⟩])]).ui.totalResults = 2 ∧
    (run (mount ⟨some ⟨"7", "a@b.c", "Ann"⟩, false, some "tok", [("token", "tok")],
        "/dashboard", none⟩)
      [.filterChange "image",
        .settle 1 (.ok [⟨"1", "text", true, 1, "2024-05-01T10:00:00", none⟩,
          ⟨"2", "image", false, 0, "2024-05-02T10:00:00", none⟩]),
        .settle 0 (.ok [⟨"1", "text", true, 1, "2024-05-01T10:00:00", none⟩,
          ⟨"2", "image", false, 0, "2024-05-02T10:00:00", none⟩])]).ui.filterType
      = "image" := by
  decide

/-- C19, amended: there is no guard against stale responses. Responses are
applied in the order they arrive, each under the query its request was issued
with: when a refresh is outstanding, a handler changes the query and issues a
second refresh, the second response arrives first and the first one last, the
records and the count displayed in the end are those computed from the first
response under the first, older query. -/
theorem last_arrived_response_wins (w : World) (l : List Query) (qa : Query) (ev : Event)
    (dataA dataB : List VerificationRecord) (hinflight : w.inflight = l ++ [qa])
    (hev : ∀ i r, ev ≠ .settle i r) (hauth : isAuthenticated w.browser = true)
    (hchange : (handle w ev).ui.query ≠ w.ui.query) :
    (step w ev).inflight = l ++ [qa, (handle w ev).ui.query] ∧
    (step (step w ev) (.settle (l.length + 1) (.ok dataB))).ui.results
      = (computeView (handle w ev).ui.query dataB).results ∧
    (step (step w ev) (.settle (l.length + 1) (.ok dataB))).ui.totalResults
      = (computeView (handle w ev).ui.query dataB).totalResults ∧
    (step (step (step w ev) (.settle (l.length + 1) (.ok dataB)))
        (.settle l.length (.ok dataA))).ui.results = (computeView qa dataA).results ∧
    (step (step (step w ev) (.settle (l.length + 1) (.ok dataB)))
        (.settle l.length (.ok dataA))).ui.totalResults
      = (computeView qa dataA).totalResults ∧
    (step (step (step w ev) (.settle (l.length + 1) (.ok dataB)))
        (.settle l.length (.ok dataA))).ui.query = (handle w ev).ui.query := by
  have h1 := step_of_query_change w ev hev hauth hchange
  have hin1 : (step w ev).inflight = (l ++ [qa]) ++ (handle w ev).ui.query :: [] := by
    rw [h1, hinflight]
  have h2 := step_settle_ok (step w ev) (l ++ [qa]) (handle w ev).ui.query [] (l.length + 1)
    dataB hin1 (by simp)
  have hin2 : (step (step w ev) (.settle (l.length + 1) (.ok dataB))).inflight
      = l ++ qa :: [] := by
    rw [h2]; simp
  have h3 := step_settle_ok (step (step w ev) (.settle (l.length + 1) (.ok dataB))) l qa []
    l.length dataA hin2 rfl
  refine ⟨by rw [hin1]; simp, by rw [h2], by rw [h2], by rw [h3], by rw [h3], ?_⟩
  rw [h3, h2, h1]
  rfl

/-- Witness of C19: the scenario on the freshly mounted dashboard of an
authenticated session, the filter being changed to "image"; both requests are
fulfilled with a text record and an image record. -/
theorem last_arrived_response_wins_witness :
    (step (mount ⟨some ⟨"7", "a@b.c", "Ann"⟩, false, some "tok", [("token", "tok")],
        "/dashboard", none⟩) (.filterChange "image")).inflight
      = [] ++ [⟨"all", "", 0, 10⟩, (handle (mount ⟨some ⟨"7", "a@b.c", "Ann"⟩, false, some "tok", [("token", "tok")],
        "/dashboard", none⟩) (.filterChange "image")).ui.query] ∧
    (step (step (mount ⟨some ⟨"7", "a@b.c", "Ann"⟩, false, some "tok", [("token", "tok")],
        "/dashboard", none⟩) (.filterChange "image"))
      (.settle (([] : List Query).length + 1)
        (.ok [⟨"1", "text", true, 1, "2024-05-01T10:00:00", none⟩,
        ⟨"2", "image", false, 0, "2024-05-02T10:00:00", none⟩]))).ui.results
      = (computeView (handle (mount ⟨some ⟨"7", "a@b.c", "Ann"⟩, false, some "tok", [("token", "tok")],
        "/dashboard", none⟩) (.filterChange "image")).ui.query
        [⟨"1", "text", true, 1, "2024-05-01T10:00:00", none⟩,
        ⟨"2", "image", false, 0, "2024-05-02T10:00:00", none⟩]).results ∧
    (step (step (mount ⟨some ⟨"7", "a@b.c", "Ann"⟩, false, some "tok", [("token", "tok")],
        "/dashboard", none⟩) (.filterChange "image"))
      (.settle (([] : List Query).length + 1)
        (.ok [⟨"1", "text", true, 1, "2024-05-01T10:00:00", none⟩,
        ⟨"2", "image", false, 0, "2024-05-02T10:00:00", none⟩]))).ui.totalResults
      = (computeView (handle (mount ⟨some ⟨"7", "a@b.c", "Ann"⟩, false, some "tok", [("token", "tok")],
        "/dashboard", none⟩) (.filterChange "image")).ui.query
        [⟨"1", "text", true, 1, "2024-05-01T10:00:00", none⟩,
        ⟨"2", "image", false, 0, "2024-05-02T10:00:00", none⟩]).totalResults ∧
    (step (step (step (mount ⟨some ⟨"7", "a@b.c", "Ann"⟩, false, some "tok", [("token", "tok")],
        "/dashboard", none⟩) (.filterChange "image"))
      (.settle (([] : List Query).length + 1)
        (.ok [⟨"1", "text", true, 1, "2024-05-01T10:00:00", none⟩,
        ⟨"2", "image", false, 0, "2024-05-02T10:00:00", none⟩])))
      (.settle ([] : List Query).length
        (.ok [⟨"1", "text", true, 1, "2024-05-01T10:00:00", none⟩,
        ⟨"2", "image", false, 0, "2024-05-02T10:00:00", none⟩]))).ui.results
      = (computeView ⟨"all", "", 0, 10⟩
        [⟨"1", "text", true, 1, "2024-05-01T10:00:00", none⟩,
        ⟨"2", "image", false, 0, "2024-05-02T10:00:00", none⟩]).results ∧
    (step (step (step (mount ⟨some ⟨"7", "a@b.c", "Ann"⟩, false, some "tok", [("token", "tok")],
        "/dashboard", none⟩) (.filterChange "image"))
      (.settle (([] : List Query).length + 1)
        (.ok [⟨"1", "text", true, 1, "2024-05-01T10:00:00", none⟩,
        ⟨"2", "image", false, 0, "2024-05-02T10:00:00", none⟩])))
      (.settle ([] : List Query).length
        (.ok [⟨"1", "text", true, 1, "2024-05-01T10:00:00", none⟩,
        ⟨"2", "image", false, 0, "2024-05-02T10:00:00", none⟩]))).ui.totalResults
      = (computeView ⟨"all", "", 0, 10⟩
        [⟨"1", "text", true, 1, "2024-05-01T10:00:00", none⟩,
        ⟨"2", "image", false, 0, "2024-05-02T10:00:00", none⟩]).totalResults ∧
    (step (step (step (mount ⟨some ⟨"7", "a@b.c", "Ann"⟩, false, some "tok", [("token", "tok")],
        "/dashboard", none⟩) (.filterChange "image"))
      (.settle (([] : List Query).length + 1)
        (.ok [⟨"1", "text", true, 1, "2024-05-01T10:00:00", none⟩,
        ⟨"2", "image", false, 0, "2024-05-02T10:00:00", none⟩])))
      (.settle ([] : List Query).length
        (.ok [⟨"1", "text", true, 1, "2024-05-01T10:00:00", none⟩,
        ⟨"2", "image", false, 0, "2024-05-02T10:00:00", none⟩]))).ui.query
      = (handle (mount ⟨some ⟨"7", "a@b.c", "Ann"⟩, false, some "tok", [("token", "tok")],
        "/dashboard", none⟩) (.filterChange "image")).ui.query :=
  last_arrived_response_wins (mount ⟨some ⟨"7", "a@b.c", "Ann"⟩, false, some "tok", [("token", "tok")],
        "/dashboard", none⟩) [] ⟨"all", "", 0, 10⟩ (.filterChange "image")
    [⟨"1", "text", true, 1, "2024-05-01T10:00:00", none⟩,
        ⟨"2", "image", false, 0, "2024-05-02T10:00:00", none⟩]
    [⟨"1", "text", true, 1, "2024-05-01T10:00:00", none⟩,
        ⟨"2", "image", false, 0, "2024-05-02T10:00:00", none⟩] (by decide)
    (fun _ _ h => Event.noConfusion h) (by decide) (by decide)

theorem responseError_results (e : AxiosError) (b : Browser) :
    responseError "/api/results/?limit=1000&skip=0" e b =
      if e.status = some 401 ∧ b.pathname ≠ "/login" ∧ b.pathname ≠ "/signup" then
        { b with
          localStorage := removeItem (removeItem b.localStorage "token") "user"
          href := some "/login" }
      else b := by
  have h : (includes "/api/results/?limit=1000&skip=0" "/api/auth/login" ||
      includes "/api/results/?limit=1000&skip=0" "/api/auth/register" ||
      includes "/api/results/?limit=1000&skip=0" "/api/auth/validate-password" ||
      includes "/api/results/?limit=1000&skip=0" "/api/auth/change-password") = false := by
    decide
  unfold responseError
  by_cases hs : e.status = some 401
  · by_cases h1 : b.pathname = "/login"
    · simp [hs, h1]
    · by_cases h2 : b.pathname = "/signup"
      · simp [hs, h2]
      · simp [hs, h, h1, h2]
  · simp [hs]

/-- C20, as stated, fails in its second half: the request of the refresh
issued by the first render is rejected with status 500; the promise of
`fetchActivityData` is fulfilled, not rejected with the error, and the
dashboard state is the one before, so nothing tells the caller that the
refresh failed. -/
theorem refresh_failure_not_reported :
    (fetchActivityDataSettled ⟨"all", "", 0, 10⟩
        (.error ⟨some 500, some "Internal Server Error"⟩)
        (mount ⟨some ⟨"7", "a@b.c", "Ann"⟩, false, some "tok", [("token", "tok")],
          "/dashboard", none⟩)).2 = .fulfilled ∧
    (fetchActivityDataSettled ⟨"all", "", 0, 10⟩
        (.error ⟨some 500, some "Internal Server Error"⟩)
        (mount ⟨some ⟨"7", "a@b.c", "Ann"⟩, false, some "tok", [("token", "tok")],
          "/dashboard", none⟩)).2
      ≠ .rejected ⟨some 500, some "Internal Server Error"⟩ ∧
    (step (mount ⟨some ⟨"7", "a@b.c", "Ann"⟩, false, some "tok", [("token", "tok")],
        "/dashboard", none⟩)
      (.settle 0 (.error ⟨some 500, some "Internal Server Error"⟩))).ui
      = (mount ⟨some ⟨"7", "a@b.c", "Ann"⟩, false, some "tok", [("token", "tok")],
        "/dashboard", none⟩).ui := by
  decide

/-- C20, amended: when the request of a refresh is rejected, `results`,
`totalResults` and the rest of the dashboard's own state stay exactly as they
were. The failure does not reach the caller: `fetchActivityData` catches it
and its promise is fulfilled, as after a fulfilled request. Outside the
dashboard's state, the response interceptor removes the stored token and
profile and redirects to "/login" when the status is 401 and the current path
is neither "/login" nor "/signup", and leaves the browser state as it is for
every other failure. -/
theorem refresh_failure_keeps_state (w : World) (i : Nat) (e : AxiosError) :
    (step w (.settle i (.error e))).ui = w.ui ∧
    (step w (.settle i (.error e))).ui.results = w.ui.results ∧
    (step w (.settle i (.error e))).ui.totalResults = w.ui.totalResults ∧
    (∀ (q : Query) (w1 : World) (data : List VerificationRecord),
      (fetchActivityDataSettled q (.error e) w1).2 = .fulfilled ∧
      (fetchActivityDataSettled q (.error e) w1).2 ≠ .rejected e ∧
      (fetchActivityDataSettled q (.ok data) w1).2 = .fulfilled) ∧
    (step w (.settle i (.error e))).browser =
      match w.inflight.get? i with
      | none => w.browser
      | some _ =>
        if e.status = some 401 ∧ w.browser.pathname ≠ "/login" ∧
            w.browser.pathname ≠ "/signup" then
          { w.browser with
            localStorage := removeItem (removeItem w.browser.localStorage "token") "user"
            href := some "/login" }
        else w.browser := by
  have h := step_settle_error w i e
  refine ⟨h, by rw [h], by rw [h], ?_, ?_⟩
  · intro q w1 data
    exact ⟨rfl, fun hne => Settlement.noConfusion hne, rfl⟩
  · cases hg : w.inflight.get? i with
    | none =>
      simp only [step, handle, hg]
      rw [effect_of_query_eq rfl]
    | some q =>
      simp only [step, handle, hg, fetchActivityDataSettled]
      have hq : (⟨responseError "/api/results/?limit=1000&skip=0" e w.browser, w.ui,
          w.inflight.eraseIdx i⟩ : World).ui.query = w.ui.query := rfl
      rw [effect_of_query_eq hq, responseError_results]

end Dashboard

namespace Dashboard

open AuthContext

/-! ## Empty state and insights -/

/-- C21, as stated, fails: the stats request has settled, every response of
the activity list carries an empty snapshot, the filter is "text", and the
message shown is "No activities match your filters", not the one for an empty
snapshot. -/
theorem empty_snapshot_under_filter_message :
    (fetchDashboardDataSettled (.ok ⟨0, 0, 0, 0, 0, 0⟩) Summary.initial).loading = false ∧
    (run (mount ⟨some ⟨"7", "a@b.c", "Ann"⟩, false, some "tok", [("token", "tok")],
        "/dashboard", none⟩)
      [.filterChange "text", .settle 0 (.ok []), .settle 0 (.ok [])]).ui.results = [] ∧
    emptyMessage (fetchDashboardDataSettled (.ok ⟨0, 0, 0, 0, 0, 0⟩) Summary.initial)
      (run (mount ⟨some ⟨"7", "a@b.c", "Ann"⟩, false, some "tok",
        [("token", "tok")], "/dashboard", none⟩)
      [.filterChange "text", .settle 0 (.ok []), .settle 0 (.ok [])]).ui
      = some "No activities match your filters" := by
  decide

/-- C21, amended: the dashboard shows an empty-state message exactly when
`loading` is false and the visible list is empty, and chooses it by the query
alone: "No activities match your filters" when `searchQuery` is not empty or
`filterType` is not "all", "No verifications yet. Start by verifying your
first content!" when `searchQuery` is empty and `filterType` is "all". While
`loading` is true, as on the first render, no message is shown. -/
theorem emptyMessage_by_query (p : Summary) (s : State) :
    (emptyMessage p s = some "No activities match your filters" ↔
      p.loading = false ∧ s.results = [] ∧ (s.searchQuery ≠ "" ∨ s.filterType ≠ "all")) ∧
    (emptyMessage p s = some "No verifications yet. Start by verifying your first content!" ↔
      p.loading = false ∧ s.results = [] ∧ s.searchQuery = "" ∧ s.filterType = "all") ∧
    (emptyMessage p s = none ↔ p.loading = true ∨ s.results ≠ []) ∧
    emptyMessage Summary.initial s = none := by
  have hne : ("No activities match your filters" : String)
      ≠ "No verifications yet. Start by verifying your first content!" := by decide
  refine ⟨?_, ?_, ?_, rfl⟩ <;>
  · unfold emptyMessage
    cases hl : p.loading
    · by_cases hr : s.results = []
      · by_cases hq : s.searchQuery = "" <;> by_cases hf : s.filterType = "all" <;>
          simp [hr, hq, hf, hne, hne.symm]
      · have hlen : ¬ s.results.length = 0 := fun h => hr (List.length_eq_zero.mp h)
        simp [hr, hlen]
    · simp

theorem displayed_finite (p : Summary) :
    ∀ x ∈ (insightsCard p).displayed, ∃ q : ℚ, x = .finite q := by
  unfold insightsCard
  cases hl : p.loading
  · cases hs : p.stats with
    | none => intro x hx; simp [InsightsCard.displayed] at hx
    | some s =>
      by_cases ht : s.total_verifications > 0
      · have h0 : ¬ s.total_verifications = 0 := by omega
        intro x hx
        simp only [Bool.false_eq_true, if_false, ht, if_true, InsightsCard.displayed, jsDiv,
          h0, times100, mathRound, orZero, List.cons_append, List.nil_append, List.mem_cons,
          List.mem_singleton, List.not_mem_nil, or_false] at hx
        rcases hx with h | h | h | h | h <;> exact ⟨_, h⟩
      · intro x hx
        simp [ht, InsightsCard.displayed] at hx
  · intro x hx
    simp [InsightsCard.displayed] at hx

/-- C22, as stated, fails: with no verification in total (three counted as
AI-generated, four as human) and `loading` false, the insights card shows the
message "No verification data yet"; it displays no percentage and no bar, so
no percentage is rendered as 0. -/
theorem zero_total_shows_no_percentage :
    insightsCard ⟨some ⟨0, 3, 4, 0, 0, 0⟩, false⟩ = .insightsEmpty ∧
    (insightsCard ⟨some ⟨0, 3, 4, 0, 0, 0⟩, false⟩).displayed = [] ∧
    JsNumber.finite 0 ∉ (insightsCard ⟨some ⟨0, 3, 4, 0, 0, 0⟩, false⟩).displayed := by
  refine ⟨by decide, by decide, ?_⟩
  have h : (insightsCard ⟨some ⟨0, 3, 4, 0, 0, 0⟩, false⟩).displayed = [] := by decide
  rw [h]
  exact List.not_mem_nil _

/-- C22, amended: when `total_verifications` is 0, whatever the other counts,
the insights card shows the message "No verification data yet" and neither a
bar nor a percentage. When it is positive (and `loading` is false) the card
shows the two bar widths `count / total * 100` and the three percentages
`Math.round(count / total * 100)`. Whatever the stats, every number displayed
is finite, never `NaN` or infinite. The fallback `|| 0` of the percentages
would turn the `NaN` of 0 / 0 into 0, but the guard on the total keeps that
case from being rendered. -/
theorem insights_zero_total (stats : Stats) (hzero : stats.total_verifications = 0) :
    insightsCard ⟨some stats, false⟩ = .insightsEmpty ∧
    (insightsCard ⟨some stats, false⟩).displayed = [] ∧
    insightsCard ⟨some stats, true⟩ = .hidden ∧
    (∀ other : Stats, 0 < other.total_verifications →
      insightsCard ⟨some other, false⟩ =
        .chart
          [.finite ((other.ai_detected : ℚ) / (other.total_verifications : ℚ) * 100),
            .finite ((other.human_detected : ℚ) / (other.total_verifications : ℚ) * 100)]
          [.finite (⌊(other.ai_detected : ℚ) / (other.total_verifications : ℚ) * 100
              + 1 / 2⌋ : Int),
            .finite (⌊(other.human_detected : ℚ) / (other.total_verifications : ℚ) * 100
              + 1 / 2⌋ : Int),
            .finite (⌊(other.ai_detected : ℚ) / (other.total_verifications : ℚ) * 100
              + 1 / 2⌋ : Int)]) ∧
    (∀ p : Summary, ∀ x ∈ (insightsCard p).displayed, x ≠ .nan ∧ x ≠ .infinity) ∧
    orZero (mathRound (times100 (jsDiv 0 0))) = .finite 0 ∧
    times100 (jsDiv 0 0) = .nan := by
  have h : insightsCard ⟨some stats, false⟩ = .insightsEmpty := by
    simp [insightsCard, hzero]
  refine ⟨h, by rw [h]; rfl, rfl, ?_, ?_, rfl, rfl⟩
  · intro other hpos
    have h0 : ¬ other.total_verifications = 0 := by omega
    simp [insightsCard, hpos, jsDiv, h0, times100, mathRound, orZero]
  · intro p x hx
    obtain ⟨q, hq⟩ := displayed_finite p x hx
    subst hq
    exact ⟨by simp, by simp⟩

/-- Witness of C22: no verification in total, although three are counted as
AI-generated and four as human. -/
theorem insights_zero_total_witness :
    insightsCard ⟨some ⟨0, 3, 4, 0, 0, 0⟩, false⟩ = .insightsEmpty ∧
    (insightsCard ⟨some ⟨0, 3, 4, 0, 0, 0⟩, false⟩).displayed = [] ∧
    insightsCard ⟨some ⟨0, 3, 4, 0, 0, 0⟩, true⟩ = .hidden ∧
    (∀ other : Stats, 0 < other.total_verifications →
      insightsCard ⟨some other, false⟩ =
        .chart
          [.finite ((other.ai_detected : ℚ) / (other.total_verifications : ℚ) * 100),
            .finite ((other.human_detected : ℚ) / (other.total_verifications : ℚ) * 100)]
          [.finite (⌊(other.ai_detected : ℚ) / (other.total_verifications : ℚ) * 100
              + 1 / 2⌋ : Int),
            .finite (⌊(other.human_detected : ℚ) / (other.total_verifications : ℚ) * 100
              + 1 / 2⌋ : Int),
            .finite (⌊(other.ai_detected : ℚ) / (other.total_verifications : ℚ) * 100
              + 1 / 2⌋ : Int)]) ∧
    (∀ p : Summary, ∀ x ∈ (insightsCard p).displayed, x ≠ .nan ∧ x ≠ .infinity) ∧
    orZero (mathRound (times100 (jsDiv 0 0))) = .finite 0 ∧
    times100 (jsDiv 0 0) = .nan :=
  insights_zero_total ⟨0, 3, 4, 0, 0, 0⟩ rfl

end Dashboard

namespace Verifier

open AuthContext

/-! ## Submission views -/

theorem view_settle_error (w : World) (i : Nat) (payload : String) (err : AxiosError)
    (hinflight : w.inflight.get? i = some payload) :
    step w (.settle i (.error err)) =
      ⟨w.kind, responseError w.kind.url err w.browser,
        { catchError w.kind err w.view with loading := false }, w.inflight.eraseIdx i⟩ := by
  simp only [step, hinflight, settled]

theorem responseError_detect (kind : Kind) (err : AxiosError) (b : Browser) :
    responseError kind.url err b =
      if err.status = some 401 ∧ b.pathname ≠ "/login" ∧ b.pathname ≠ "/signup" then
        { b with
          localStorage := removeItem (removeItem b.localStorage "token") "user"
          href := some "/login" }
      else b := by
  have h : (includes kind.url "/api/auth/login" || includes kind.url "/api/auth/register" ||
      includes kind.url "/api/auth/validate-password" ||
      includes kind.url "/api/auth/change-password") = false := by
    cases kind <;> decide
  unfold responseError
  by_cases hs : err.status = some 401
  · by_cases h1 : b.pathname = "/login"
    · simp [hs, h1]
    · by_cases h2 : b.pathname = "/signup"
      · simp [hs, h2]
      · simp [hs, h, h1, h2]
  · simp [hs]

/-- C23: in each of the three views, a failed submission with status 401 sets
the sign-in message; every other failure, a missing response included, sets
the server's detail message when there is a non-empty one and otherwise the
fallback of the view ("Failed to verify text", "image", "video"). So the
message shown is the sign-in message exactly when the status is 401, unless
the detail message or fallback is that very text. -/
theorem submission_error_message (w : World) (i : Nat) (payload : String) (err : AxiosError)
    (hinflight : w.inflight.get? i = some payload) :
    (err.status = some 401 →
      (step w (.settle i (.error err))).view.error
        = "Please login to verify content. Sign up for free to get started!") ∧
    (err.status ≠ some 401 →
      (step w (.settle i (.error err))).view.error
        = match err.detail with
          | some d => if d = "" then w.kind.fallback else d
          | none => w.kind.fallback) ∧
    ((step w (.settle i (.error err))).view.error
        = "Please login to verify content. Sign up for free to get started!" ↔
      err.status = some 401 ∨
        detailOr err w.kind.fallback
          = "Please login to verify content. Sign up for free to get started!") ∧
    Kind.text.fallback = "Failed to verify text" ∧
    Kind.image.fallback = "Failed to verify image" ∧
    Kind.video.fallback = "Failed to verify video" ∧
    (step w (.settle i (.error err))).view.loading = false := by
  rw [view_settle_error w i payload err hinflight]
  refine ⟨?_, ?_, ?_, rfl, rfl, rfl, rfl⟩
  · intro h
    simp [catchError, h, signInMessage]
  · intro h
    simp only [catchError, h, if_false, detailOr]
    cases err.detail with
    | none => rfl
    | some d => by_cases hd : d = "" <;> simp [hd]
  · by_cases h : err.status = some 401
    · simp [catchError, h, signInMessage]
    · simp [catchError, h]

/-- C23, as stated, fails in its "only if": a text submission is answered with
status 500 and a detail message that is the sign-in text itself; the view
shows the sign-in message although the status is not 401. -/
theorem sign_in_text_without_401 :
    (⟨some 500, some "Please login to verify content. Sign up for free to get started!"⟩
      : AxiosError).status ≠ some 401 ∧
    (run (mount .text ⟨none, false, none, [], "/text", none⟩ none)
      [.changeText "Some text to check", .click,
        .settle 0 (.error
          ⟨some 500,
            some "Please login to verify content. Sign up for free to get started!"⟩)]).view.error
      = "Please login to verify content. Sign up for free to get started!" := by
  decide

/-- Witness of C23: the text view, its submission answered with status 500 and
the detail "Model unavailable", which is the message shown. -/
theorem submission_error_message_witness :
    (step (step (step (mount .text ⟨none, false, none, [], "/text", none⟩ none)
        (.changeText "Some text to check")) .click)
      (.settle 0 (.error ⟨some 500, some "Model unavailable"⟩))).view.error
      = "Model unavailable" ∧
    ¬ (step (step (step (mount .text ⟨none, false, none, [], "/text", none⟩ none)
        (.changeText "Some text to check")) .click)
      (.settle 0 (.error ⟨some 500, some "Model unavailable"⟩))).view.error
      = "Please login to verify content. Sign up for free to get started!" :=
  ⟨((submission_error_message
      (step (step (mount .text ⟨none, false, none, [], "/text", none⟩ none)
        (.changeText "Some text to check")) .click)
      0 "Some text to check" ⟨some 500, some "Model unavailable"⟩ (by decide)).2.1
      (by decide)).trans (by decide),
    fun h => absurd
      (((submission_error_message
        (step (step (mount .text ⟨none, false, none, [], "/text", none⟩ none)
          (.changeText "Some text to check")) .click)
        0 "Some text to check" ⟨some 500, some "Model unavailable"⟩ (by decide)).2.2.1).mp h)
      (by decide)⟩

/-- C24, as stated, fails: a text submission from `/text` with a stored token
is answered with status 401; the view sets the sign-in message and the
interceptor removes the stored token and profile and redirects to `/login`. -/
theorem submission_401_both_reactions :
    getItem (mount .text ⟨none, false, none, [("token", "tok"), ("user", "ann")], "/text",
        none⟩ none).browser.localStorage "token" = some "tok" ∧
    (run (mount .text ⟨none, false, none, [("token", "tok"), ("user", "ann")], "/text",
        none⟩ none)
      [.changeText "Some text to check", .click,
        .settle 0 (.error ⟨some 401, some "Could not validate credentials"⟩)]).view.error
      = "Please login to verify content. Sign up for free to get started!" ∧
    getItem (run (mount .text ⟨none, false, none, [("token", "tok"), ("user", "ann")],
        "/text", none⟩ none)
      [.changeText "Some text to check", .click,
        .settle 0 (.error ⟨some 401, some "Could not validate credentials"⟩)]).browser.localStorage
      "token" = none ∧
    getItem (run (mount .text ⟨none, false, none, [("token", "tok"), ("user", "ann")],
        "/text", none⟩ none)
      [.changeText "Some text to check", .click,
        .settle 0 (.error ⟨some 401, some "Could not validate credentials"⟩)]).browser.localStorage
      "user" = none ∧
    (run (mount .text ⟨none, false, none, [("token", "tok"), ("user", "ann")], "/text",
        none⟩ none)
      [.changeText "Some text to check", .click,
        .settle 0 (.error ⟨some 401, some "Could not validate credentials"⟩)]).browser.href
      = some "/login" := by
  decide

/-- C24, amended: a detection submission answered with status 401 always sets
the sign-in message, and unless the current path is `/login` or `/signup` the
interceptor also removes the stored token and profile and redirects to
`/login`, so both reactions follow from the one request; on `/login` and
`/signup` the browser state is left as it is. A rejected profile fetch tears
the session down (token and profile removed from memory and from the store);
the session manager has no message to set. -/
theorem submission_401_reactions (w : World) (i : Nat) (payload : String) (err : AxiosError)
    (hinflight : w.inflight.get? i = some payload) (hstatus : err.status = some 401) :
    (step w (.settle i (.error err))).view.error
      = "Please login to verify content. Sign up for free to get started!" ∧
    (w.browser.pathname ≠ "/login" ∧ w.browser.pathname ≠ "/signup" →
      getItem (step w (.settle i (.error err))).browser.localStorage "token" = none ∧
      getItem (step w (.settle i (.error err))).browser.localStorage "user" = none ∧
      (step w (.settle i (.error err))).browser.href = some "/login") ∧
    (w.browser.pathname = "/login" ∨ w.browser.pathname = "/signup" →
      (step w (.settle i (.error err))).browser = w.browser) ∧
    (∀ b : Browser, (fetchRejected err b).token = none ∧ (fetchRejected err b).user = none ∧
      getItem (fetchRejected err b).localStorage "token" = none ∧
      getItem (fetchRejected err b).localStorage "user" = none) := by
  rw [view_settle_error w i payload err hinflight, responseError_detect]
  refine ⟨by simp [catchError, hstatus, signInMessage], ?_, ?_, ?_⟩
  · intro hpath
    have hcond : err.status = some 401 ∧ w.browser.pathname ≠ "/login" ∧
        w.browser.pathname ≠ "/signup" := ⟨hstatus, hpath⟩
    rw [if_pos hcond]
    exact ⟨getItem_token_cleared _, getItem_user_cleared _, rfl⟩
  · intro hpath
    rcases hpath with h | h <;> simp [h]
  · intro b
    exact ⟨rfl, rfl, fetchRejected_getItem_token _ _, fetchRejected_getItem_user _ _⟩

/-- Witness of C24: the text view on `/text` with a stored token. -/
theorem submission_401_reactions_witness :
    (step (step (step (mount .text ⟨none, false, none, [("token", "tok"), ("user", "ann")],
        "/text", none⟩ none) (.changeText "Some text to check")) .click) (.settle 0 (.error ⟨some 401, none⟩))).view.error
      = "Please login to verify content. Sign up for free to get started!" ∧
    (((step (step (mount .text ⟨none, false, none, [("token", "tok"), ("user", "ann")],
        "/text", none⟩ none) (.changeText "Some text to check")) .click) : World).browser.pathname ≠ "/login" ∧
        ((step (step (mount .text ⟨none, false, none, [("token", "tok"), ("user", "ann")],
        "/text", none⟩ none) (.changeText "Some text to check")) .click) : World).browser.pathname ≠ "/signup" →
      getItem (step (step (step (mount .text ⟨none, false, none, [("token", "tok"), ("user", "ann")],
        "/text", none⟩ none) (.changeText "Some text to check")) .click) (.settle 0 (.error ⟨some 401, none⟩))).browser.localStorage "token" = none ∧
      getItem (step (step (step (mount .text ⟨none, false, none, [("token", "tok"), ("user", "ann")],
        "/text", none⟩ none) (.changeText "Some text to check")) .click) (.settle 0 (.error ⟨some 401, none⟩))).browser.localStorage "user" = none ∧
      (step (step (step (mount .text ⟨none, false, none, [("token", "tok"), ("user", "ann")],
        "/text", none⟩ none) (.changeText "Some text to check")) .click) (.settle 0 (.error ⟨some 401, none⟩))).browser.href = some "/login") ∧
    (((step (step (mount .text ⟨none, false, none, [("token", "tok"), ("user", "ann")],
        "/text", none⟩ none) (.changeText "Some text to check")) .click) : World).browser.pathname = "/login" ∨
        ((step (step (mount .text ⟨none, false, none, [("token", "tok"), ("user", "ann")],
        "/text", none⟩ none) (.changeText "Some text to check")) .click) : World).browser.pathname = "/signup" →
      (step (step (step (mount .text ⟨none, false, none, [("token", "tok"), ("user", "ann")],
        "/text", none⟩ none) (.changeText "Some text to check")) .click) (.settle 0 (.error ⟨some 401, none⟩))).browser = ((step (step (mount .text ⟨none, false, none, [("token", "tok"), ("user", "ann")],
        "/text", none⟩ none) (.changeText "Some text to check")) .click) : World).browser) ∧
    (∀ b : Browser, (fetchRejected ⟨some 401, none⟩ b).token = none ∧ (fetchRejected ⟨some 401, none⟩ b).user = none ∧
      getItem (fetchRejected ⟨some 401, none⟩ b).localStorage "token" = none ∧
      getItem (fetchRejected ⟨some 401, none⟩ b).localStorage "user" = none) :=
  submission_401_reactions (step (step (mount .text ⟨none, false, none, [("token", "tok"), ("user", "ann")],
        "/text", none⟩ none) (.changeText "Some text to check")) .click)
    0 "Some text to check" ⟨some 401, none⟩ (by decide) rfl

end Verifier

namespace Dashboard

open AuthContext

theorem effect_browser (old : Query) (w : World) : (effect old w).browser = w.browser := by
  unfold effect fetchActivityData
  split_ifs <;> rfl

theorem step_browser_of_no_rejection (w : World) (ev : Event)
    (hev : ∀ i e, ev ≠ .settle i (.error e)) : (step w ev).browser = w.browser := by
  rw [step, effect_browser]
  cases ev with
  | settle i response =>
    cases response with
    | error e => exact absurd rfl (hev i e)
    | ok data =>
      simp only [handle]
      cases w.inflight.get? i <;> rfl
  | _ => rfl

theorem step_browser_of_rejection (w : World) (i : Nat) (e : AxiosError) :
    (step w (.settle i (.error e))).browser = w.browser ∨
    (step w (.settle i (.error e))).browser
      = responseError "/api/results/?limit=1000&skip=0" e w.browser := by
  rw [step, effect_browser]
  simp only [handle]
  cases w.inflight.get? i with
  | none => exact Or.inl rfl
  | some q => exact Or.inr rfl

end Dashboard

namespace Verifier

open AuthContext

theorem view_browser_of_no_rejection (w : World) (ev : Event)
    (hev : ∀ i e, ev ≠ .settle i (.error e)) : (step w ev).browser = w.browser := by
  cases ev with
  | settle i response =>
    cases response with
    | error e => exact absurd rfl (hev i e)
    | ok data =>
      simp only [step]
      cases w.inflight.get? i <;> rfl
  | click =>
    simp only [step, handleSubmit, handleVerify]
    split_ifs
    · cases w.kind <;> cases w.view.file <;> rfl
    · rfl
  | _ => rfl

theorem view_browser_of_rejection (w : World) (i : Nat) (e : AxiosError) :
    (step w (.settle i (.error e))).browser = w.browser ∨
    (step w (.settle i (.error e))).browser = responseError w.kind.url e w.browser := by
  simp only [step]
  cases w.inflight.get? i with
  | none => exact Or.inl rfl
  | some q => exact Or.inr rfl


/-- C25, as stated, fails: on the dashboard of a session with a stored token,
the refresh of the activity list is answered with status 401, and the
response interceptor of the HTTP client removes the stored token and profile. -/
theorem interceptor_removes_credentials :
    getItem (Dashboard.mount ⟨some ⟨"7", "a@b.c", "Ann"⟩, false, some "tok",
        [("token", "tok"), ("user", "ann")], "/dashboard", none⟩).browser.localStorage "token"
      = some "tok" ∧
    getItem (Dashboard.step (Dashboard.mount ⟨some ⟨"7", "a@b.c", "Ann"⟩, false, some "tok",
        [("token", "tok"), ("user", "ann")], "/dashboard", none⟩)
      (.settle 0 (.error ⟨some 401, none⟩))).browser.localStorage "token" = none ∧
    getItem (Dashboard.step (Dashboard.mount ⟨some ⟨"7", "a@b.c", "Ann"⟩, false, some "tok",
        [("token", "tok"), ("user", "ann")], "/dashboard", none⟩)
      (.settle 0 (.error ⟨some 401, none⟩))).browser.localStorage "user" = none := by
  decide

/-- C25, amended: the stored `token` and `user` entries are written by the
session manager (`login` sets `token`, `fetchUser` sets `user`, `logout`
removes both) and by the response interceptor of the HTTP client, which leaves
`localStorage` as it is or removes both entries. The request interceptor only
reads the token; the dashboard and the submission views leave the browser
state untouched in every event but a rejected response, where the change is
the interceptor's. -/
theorem credential_store_writers :
    (∀ (t : String) (b : Browser), getItem (tokenStored t b).localStorage "token" = some t) ∧
    (∀ (p : Profile) (b : Browser),
      getItem (profileStored p b).localStorage "user" = some (JSON_stringify p)) ∧
    (∀ b : Browser, getItem (logout b).localStorage "token" = none ∧
      getItem (logout b).localStorage "user" = none) ∧
    (∀ (url : String) (e : AxiosError) (b : Browser),
      (responseError url e b).localStorage = b.localStorage ∨
      (responseError url e b).localStorage
        = removeItem (removeItem b.localStorage "token") "user") ∧
    (∀ b : Browser, requestAuthorization b =
      match getItem b.localStorage "token" with
      | some token => if token = "" then none else some ("Bearer " ++ token)
      | none => none) ∧
    (∀ (w : Dashboard.World) (ev : Dashboard.Event),
      (∀ i e, ev ≠ .settle i (.error e)) → (Dashboard.step w ev).browser = w.browser) ∧
    (∀ (w : Dashboard.World) (i : Nat) (e : AxiosError),
      (Dashboard.step w (.settle i (.error e))).browser = w.browser ∨
      (Dashboard.step w (.settle i (.error e))).browser
        = responseError "/api/results/?limit=1000&skip=0" e w.browser) ∧
    (∀ (w : World) (ev : Event),
      (∀ i e, ev ≠ .settle i (.error e)) → (step w ev).browser = w.browser) ∧
    (∀ (w : World) (i : Nat) (e : AxiosError),
      (step w (.settle i (.error e))).browser = w.browser ∨
      (step w (.settle i (.error e))).browser = responseError w.kind.url e w.browser) := by
  refine ⟨fun t b => getItem_setItem_self _ _ _, fun p b => getItem_setItem_self _ _ _,
    fun b => ⟨getItem_token_cleared _, getItem_user_cleared _⟩, ?_, ?_,
    Dashboard.step_browser_of_no_rejection, Dashboard.step_browser_of_rejection,
    view_browser_of_no_rejection, view_browser_of_rejection⟩
  · intro url e b
    simp only [responseError]
    split_ifs
    · exact Or.inr rfl
    · exact Or.inl rfl
    · exact Or.inl rfl
  · intro b
    unfold requestAuthorization
    cases getItem b.localStorage "token" with
    | none => rfl
    | some token => by_cases h : token = "" <;> simp [h]

theorem consistent_mount (kind : Kind) (browser : Browser) (quickText : Option String) :
    Consistent (mount kind browser quickText) := rfl

theorem consistent_step (w : World) (ev : Event) (h : Consistent w) : Consistent (step w ev) := by
  unfold Consistent at h ⊢
  cases ev with
  | changeText value => exact h
  | upload selectedFile => exact h
  | click =>
    simp only [step]
    by_cases hb : buttonEnabled w = true
    · have hl : w.view.loading = false := by
        unfold buttonEnabled at hb
        cases hk : w.kind <;> simp [hk] at hb <;> simp [hb]
      rw [hl] at h
      simp only [hb, if_true]
      cases hk : w.kind
      · simp [handleSubmit, h]
      · cases hf : w.view.file with
        | none => simp [handleVerify, hf, hl, h]
        | some f => simp [handleVerify, hf, h]
      · cases hf : w.view.file with
        | none => simp [handleVerify, hf, hl, h]
        | some f => simp [handleVerify, hf, h]
    · simp only [hb]
      exact h
  | settle i response =>
    cases hg : w.inflight.get? i with
    | none =>
      simp only [step, hg]
      exact h
    | some payload =>
      simp only [step, hg]
      have hlt : i < w.inflight.length := by
        by_contra hn
        rw [List.get?_eq_none.mpr (Nat.le_of_not_lt hn)] at hg
        exact Option.noConfusion hg
      have hlen : w.inflight.length = 1 := by
        cases hl : w.view.loading
        · rw [hl] at h
          simp only [Bool.false_eq_true, if_false] at h
          omega
        · rw [hl] at h
          simpa using h
      have hi : i = 0 := by omega
      cases response with
      | ok data => simp [settled, List.length_eraseIdx, hlen, hi]
      | error err => simp [settled, List.length_eraseIdx, hlen, hi]

theorem consistent_run (w : World) (evs : List Event) (h : Consistent w) :
    Consistent (run w evs) := by
  induction evs generalizing w with
  | nil => exact h
  | cons ev evs ih => exact ih (step w ev) (consistent_step w ev h)

/-- C26: in every state a view reaches from its first render, whichever of
the three views it is, at most one detection request is outstanding, and one
is outstanding exactly while `loading` is true; a click on the button while a
request is outstanding issues no request and changes nothing. -/
theorem at_most_one_submission_in_flight (kind : Kind) (browser : Browser)
    (quickText : Option String) (evs : List Event) :
    (run (mount kind browser quickText) evs).inflight.length ≤ 1 ∧
    ((run (mount kind browser quickText) evs).inflight.length = 1 ↔
      (run (mount kind browser quickText) evs).view.loading = true) ∧
    ((run (mount kind browser quickText) evs).inflight ≠ [] →
      step (run (mount kind browser quickText) evs) .click
        = run (mount kind browser quickText) evs) := by
  have h : Consistent (run (mount kind browser quickText) evs) :=
    consistent_run _ evs (consistent_mount kind browser quickText)
  unfold Consistent at h
  cases hl : (run (mount kind browser quickText) evs).view.loading
  · rw [hl] at h
    simp only [if_false, Bool.false_eq_true] at h
    refine ⟨by omega, by simp [h], ?_⟩
    intro hne
    exact absurd (List.length_eq_zero.mp h) hne
  · rw [hl] at h
    simp only [if_true] at h
    refine ⟨by omega, by simp [h], ?_⟩
    intro _
    have hb : buttonEnabled (run (mount kind browser quickText) evs) = false := by
      unfold buttonEnabled
      cases (run (mount kind browser quickText) evs).kind <;> simp [hl]
    simp [step, hb]

end Verifier

namespace AuthContext

/-! ## Start without a token, and the response interceptor -/

/-- C27: when no token is persisted, the first render issues no request and
ends with `loading` false, token and user absent and `isAuthenticated` false;
`localStorage` is left as it was. -/
theorem init_without_token (ls : LocalStorage) (pathname : String)
    (habsent : getItem ls "token" = none) :
    (mount ls pathname).inflight = [] ∧
    (mount ls pathname).browser.loading = false ∧
    (mount ls pathname).browser.token = none ∧
    (mount ls pathname).browser.user = none ∧
    isAuthenticated (mount ls pathname).browser = false ∧
    (mount ls pathname).browser.localStorage = ls := by
  have h : mount ls pathname =
      ⟨{ user := none, loading := false, token := none, localStorage := ls,
         pathname := pathname, href := none }, [], []⟩ := by
    simp [mount, effectBody, habsent, truthy, setLoading]
  rw [h]
  exact ⟨rfl, rfl, rfl, rfl, rfl, rfl⟩

/-- Witness of C27: an empty `localStorage`, the application opened on `/`. -/
theorem init_without_token_witness :
    (mount [] "/").inflight = [] ∧
    (mount [] "/").browser.loading = false ∧
    (mount [] "/").browser.token = none ∧
    (mount [] "/").browser.user = none ∧
    isAuthenticated (mount [] "/").browser = false ∧
    (mount [] "/").browser.localStorage = [] :=
  init_without_token [] "/" rfl

/-- C28: for every rejected response, the interceptor removes the stored token
and profile and assigns "/login" to `window.location.href` when the status is
401, the URL of the request contains none of the four authentication paths
and the current path is neither "/login" nor "/signup"; in every other case
it leaves the browser state untouched; in all cases it rejects with the
error it received. -/
theorem responseInterceptor_rejection (url : String) (error : AxiosError) (b : Browser) :
    ((error.status = some 401 ∧
        includes url "/api/auth/login" = false ∧
        includes url "/api/auth/register" = false ∧
        includes url "/api/auth/validate-password" = false ∧
        includes url "/api/auth/change-password" = false ∧
        b.pathname ≠ "/login" ∧ b.pathname ≠ "/signup") →
      (rejectResponse url error b : Browser × Except AxiosError Unit).1
        = { b with
            localStorage := removeItem (removeItem b.localStorage "token") "user"
            href := some "/login" } ∧
      getItem (rejectResponse url error b : Browser × Except AxiosError Unit).1.localStorage
        "token" = none ∧
      getItem (rejectResponse url error b : Browser × Except AxiosError Unit).1.localStorage
        "user" = none) ∧
    (¬ (error.status = some 401 ∧
        includes url "/api/auth/login" = false ∧
        includes url "/api/auth/register" = false ∧
        includes url "/api/auth/validate-password" = false ∧
        includes url "/api/auth/change-password" = false ∧
        b.pathname ≠ "/login" ∧ b.pathname ≠ "/signup") →
      (rejectResponse url error b : Browser × Except AxiosError Unit).1 = b) ∧
    (rejectResponse url error b : Browser × Except AxiosError Unit).2 = .error error := by
  refine ⟨?_, ?_, rfl⟩
  · rintro ⟨hs, h1, h2, h3, h4, h5, h6⟩
    have h : (rejectResponse url error b : Browser × Except AxiosError Unit).1
        = { b with
            localStorage := removeItem (removeItem b.localStorage "token") "user"
            href := some "/login" } := by
      simp [rejectResponse, responseError, hs, h1, h2, h3, h4, h5, h6]
    rw [h]
    exact ⟨rfl, getItem_token_cleared _, getItem_user_cleared _⟩
  · intro hn
    simp only [rejectResponse, responseError]
    by_cases hs : error.status = some 401
    · simp only [hs, if_true]
      split_ifs with hc
      · exfalso
        apply hn
        simp only [Bool.and_eq_true, Bool.not_eq_true', Bool.or_eq_false_iff, bne_iff_ne,
          ne_eq] at hc
        obtain ⟨⟨⟨⟨⟨h1, h2⟩, h3⟩, h4⟩, h5⟩, h6⟩ := hc
        exact ⟨hs, h1, h2, h3, h4, h5, h6⟩
      · rfl
    · simp [hs]

end AuthContext

namespace Dashboard

open AuthContext

/-! ## Pagination and type filter as a whole -/

theorem flatMap_pages {α : Type} (l : List α) (n k : Nat) :
    (List.range k).flatMap (fun p => (l.drop (p * n)).take n) = l.take (k * n) := by
  induction k with
  | zero => simp
  | succ k ih =>
    rw [List.range_succ, List.flatMap_append, ih, List.flatMap_singleton, Nat.succ_mul,
      List.take_add]

theorem computeView_results_nat (q : Query) (data : List VerificationRecord) (p : Nat) :
    (computeView { q with currentPage := (p : Int) } data).results
      = ((filterResults q data).drop (p * q.pageLimit)).take q.pageLimit := by
  have hcast : (p : Int) * (q.pageLimit : Int) = ((p * q.pageLimit : Nat) : Int) := by
    rw [Nat.cast_mul]
  simp only [computeView, hcast]
  exact slice_of_nat _ _ _

/-- C29: for a page size of at least 1, the pages 0 to `totalPages - 1`, put
one after the other, are the filtered list itself; each of these pages holds
between 1 and `pageLimit` records; every page from `totalPages` on is empty. -/
theorem pagination_lossless (q : Query) (data : List VerificationRecord)
    (hsize : 1 ≤ q.pageLimit) :
    (List.range (totalPages (filterResults q data).length q.pageLimit)).flatMap
        (fun p => (computeView { q with currentPage := (p : Int) } data).results)
      = filterResults q data ∧
    (∀ p : Nat, p < totalPages (filterResults q data).length q.pageLimit →
      1 ≤ (computeView { q with currentPage := (p : Int) } data).results.length ∧
      (computeView { q with currentPage := (p : Int) } data).results.length ≤ q.pageLimit) ∧
    (∀ p : Nat, totalPages (filterResults q data).length q.pageLimit ≤ p →
      (computeView { q with currentPage := (p : Int) } data).results = []) ∧
    (∀ p : Nat, (computeView { q with currentPage := (p : Int) } data).totalResults
      = (filterResults q data).length) := by
  have hn : 0 < q.pageLimit := hsize
  refine ⟨?_, ?_, ?_, fun p => rfl⟩
  · have hfun : (fun p : Nat => (computeView { q with currentPage := (p : Int) } data).results)
        = fun p : Nat => ((filterResults q data).drop (p * q.pageLimit)).take q.pageLimit := by
      funext p
      exact computeView_results_nat q data p
    rw [hfun, flatMap_pages]
    exact List.take_of_length_le ((totalPages_le_iff _ _ _ hn).mp (Nat.le_refl _))
  · intro p hp
    rw [computeView_results_nat]
    have hlt : p * q.pageLimit < (filterResults q data).length := by
      by_contra hcon
      have := (totalPages_le_iff _ _ p hn).mpr (Nat.le_of_not_lt hcon)
      omega
    simp only [List.length_take, List.length_drop]
    omega
  · intro p hp
    rw [computeView_results_nat]
    have hle : (filterResults q data).length ≤ p * q.pageLimit :=
      (totalPages_le_iff _ _ p hn).mp hp
    rw [List.drop_of_length_le hle]
    simp

/-- Witness of C29: two records in pages of 10. -/
theorem pagination_lossless_witness :
    (List.range (totalPages (filterResults (⟨"all", "", 0, 10⟩ : Query)
        [⟨"1", "text", true, 1, "2024-05-01T10:00:00", none⟩,
        ⟨"2", "image", false, 0, "2024-05-02T10:00:00", none⟩]).length ((⟨"all", "", 0, 10⟩ : Query)).pageLimit)).flatMap
        (fun p => (computeView { (⟨"all", "", 0, 10⟩ : Query) with currentPage := (p : Int) }
        [⟨"1", "text", true, 1, "2024-05-01T10:00:00", none⟩,
        ⟨"2", "image", false, 0, "2024-05-02T10:00:00", none⟩]).results)
      = filterResults (⟨"all", "", 0, 10⟩ : Query)
        [⟨"1", "text", true, 1, "2024-05-01T10:00:00", none⟩,
        ⟨"2", "image", false, 0, "2024-05-02T10:00:00", none⟩] ∧
    (∀ p : Nat, p < totalPages (filterResults (⟨"all", "", 0, 10⟩ : Query)
        [⟨"1", "text", true, 1, "2024-05-01T10:00:00", none⟩,
        ⟨"2", "image", false, 0, "2024-05-02T10:00:00", none⟩]).length ((⟨"all", "", 0, 10⟩ : Query)).pageLimit →
      1 ≤ (computeView { (⟨"all", "", 0, 10⟩ : Query) with currentPage := (p : Int) }
        [⟨"1", "text", true, 1, "2024-05-01T10:00:00", none⟩,
        ⟨"2", "image", false, 0, "2024-05-02T10:00:00", none⟩]).results.length ∧
      (computeView { (⟨"all", "", 0, 10⟩ : Query) with currentPage := (p : Int) }
        [⟨"1", "text", true, 1, "2024-05-01T10:00:00", none⟩,
        ⟨"2", "image", false, 0, "2024-05-02T10:00:00", none⟩]).results.length ≤ ((⟨"all", "", 0, 10⟩ : Query)).pageLimit) ∧
    (∀ p : Nat, totalPages (filterResults (⟨"all", "", 0, 10⟩ : Query)
        [⟨"1", "text", true, 1, "2024-05-01T10:00:00", none⟩,
        ⟨"2", "image", false, 0, "2024-05-02T10:00:00", none⟩]).length ((⟨"all", "", 0, 10⟩ : Query)).pageLimit ≤ p →
      (computeView { (⟨"all", "", 0, 10⟩ : Query) with currentPage := (p : Int) }
        [⟨"1", "text", true, 1, "2024-05-01T10:00:00", none⟩,
        ⟨"2", "image", false, 0, "2024-05-02T10:00:00", none⟩]).results = []) ∧
    (∀ p : Nat, (computeView { (⟨"all", "", 0, 10⟩ : Query) with currentPage := (p : Int) }
        [⟨"1", "text", true, 1, "2024-05-01T10:00:00", none⟩,
        ⟨"2", "image", false, 0, "2024-05-02T10:00:00", none⟩]).totalResults
      = (filterResults (⟨"all", "", 0, 10⟩ : Query)
        [⟨"1", "text", true, 1, "2024-05-01T10:00:00", none⟩,
        ⟨"2", "image", false, 0, "2024-05-02T10:00:00", none⟩]).length) :=
  pagination_lossless (⟨"all", "", 0, 10⟩ : Query)
    [⟨"1", "text", true, 1, "2024-05-01T10:00:00", none⟩,
        ⟨"2", "image", false, 0, "2024-05-02T10:00:00", none⟩] (by decide)


theorem applySearchFilter_filter (searchQuery : String) (p : VerificationRecord → Bool)
    (l : List VerificationRecord) :
    applySearchFilter searchQuery (l.filter p) = (applySearchFilter searchQuery l).filter p := by
  unfold applySearchFilter
  split_ifs
  · rw [List.filter_filter, List.filter_filter]
    apply List.filter_congr
    intro r _
    exact Bool.and_comm _ _
  · rfl

theorem filterResults_typed (type searchQuery : String) (currentPage : Int) (pageLimit : Nat)
    (data : List VerificationRecord) (htype : type ≠ "all") :
    filterResults ⟨type, searchQuery, currentPage, pageLimit⟩ data
      = (filterResults ⟨"all", searchQuery, currentPage, pageLimit⟩ data).filter
          (fun r => r.type == type) := by
  have h1 : (type != "all") = true := by simpa using htype
  have h2 : (("all" : String) != "all") = false := by decide
  simp only [filterResults, applyTypeFilter, h1, h2, if_true, Bool.false_eq_true, if_false]
  exact applySearchFilter_filter _ _ _

theorem length_by_type (l : List VerificationRecord)
    (htypes : ∀ r ∈ l, r.type = "text" ∨ r.type = "image" ∨ r.type = "video") :
    l.length = (l.filter (fun r => r.type == "text")).length
      + (l.filter (fun r => r.type == "image")).length
      + (l.filter (fun r => r.type == "video")).length := by
  induction l with
  | nil => rfl
  | cons r rest ih =>
    have hrest := ih (fun x hx => htypes x (List.mem_cons_of_mem _ hx))
    have h1 : ("text" : String) ≠ "image" := by decide
    have h2 : ("text" : String) ≠ "video" := by decide
    have h3 : ("image" : String) ≠ "video" := by decide
    rcases htypes r (List.mem_cons_self _ _) with h | h | h
    · simp only [List.filter_cons, h, beq_self_eq_true, if_true, List.length_cons]
      simp [h1, h2]
      omega
    · simp only [List.filter_cons, h, beq_self_eq_true, if_true, List.length_cons]
      simp [h1.symm, h3]
      omega
    · simp only [List.filter_cons, h, beq_self_eq_true, if_true, List.length_cons]
      simp [h2.symm, h3.symm]
      omega

/-- C30: on a snapshot whose records all have type "text", "image" or
"video", for every search query, the count under the filter "all" is the sum
of the counts under "text", "image" and "video", and the list under each of
these three filters is the list under "all" restricted to the records of
that type. -/
theorem type_filter_partitions (data : List VerificationRecord) (searchQuery : String)
    (currentPage : Int) (pageLimit : Nat)
    (htypes : ∀ r ∈ data, r.type = "text" ∨ r.type = "image" ∨ r.type = "video") :
    (computeView ⟨"all", searchQuery, currentPage, pageLimit⟩ data).totalResults
      = (computeView ⟨"text", searchQuery, currentPage, pageLimit⟩ data).totalResults
        + (computeView ⟨"image", searchQuery, currentPage, pageLimit⟩ data).totalResults
        + (computeView ⟨"video", searchQuery, currentPage, pageLimit⟩ data).totalResults ∧
    filterResults ⟨"text", searchQuery, currentPage, pageLimit⟩ data
      = (filterResults ⟨"all", searchQuery, currentPage, pageLimit⟩ data).filter
          (fun r => r.type == "text") ∧
    filterResults ⟨"image", searchQuery, currentPage, pageLimit⟩ data
      = (filterResults ⟨"all", searchQuery, currentPage, pageLimit⟩ data).filter
          (fun r => r.type == "image") ∧
    filterResults ⟨"video", searchQuery, currentPage, pageLimit⟩ data
      = (filterResults ⟨"all", searchQuery, currentPage, pageLimit⟩ data).filter
          (fun r => r.type == "video") := by
  have ht := filterResults_typed "text" searchQuery currentPage pageLimit data (by decide)
  have hi := filterResults_typed "image" searchQuery currentPage pageLimit data (by decide)
  have hv := filterResults_typed "video" searchQuery currentPage pageLimit data (by decide)
  refine ⟨?_, ht, hi, hv⟩
  show (filterResults ⟨"all", searchQuery, currentPage, pageLimit⟩ data).length
    = (filterResults ⟨"text", searchQuery, currentPage, pageLimit⟩ data).length
      + (filterResults ⟨"image", searchQuery, currentPage, pageLimit⟩ data).length
      + (filterResults ⟨"video", searchQuery, currentPage, pageLimit⟩ data).length
  rw [ht, hi, hv]
  apply length_by_type
  intro r hr
  exact htypes r ((filterResults_sublist _ data).subset hr)

/-- Witness of C30: a text record and an image record, searched for "ai". -/
theorem type_filter_partitions_witness :
    (computeView ⟨"all", "ai", 0, 10⟩
        [⟨"1", "text", true, 1, "2024-05-01T10:00:00", none⟩,
          ⟨"2", "image", false, 0, "2024-05-02T10:00:00", none⟩]).totalResults
      = (computeView ⟨"text", "ai", 0, 10⟩
          [⟨"1", "text", true, 1, "2024-05-01T10:00:00", none⟩,
            ⟨"2", "image", false, 0, "2024-05-02T10:00:00", none⟩]).totalResults
        + (computeView ⟨"image", "ai", 0, 10⟩
          [⟨"1", "text", true, 1, "2024-05-01T10:00:00", none⟩,
            ⟨"2", "image", false, 0, "2024-05-02T10:00:00", none⟩]).totalResults
        + (computeView ⟨"video", "ai", 0, 10⟩
          [⟨"1", "text", true, 1, "2024-05-01T10:00:00", none⟩,
            ⟨"2", "image", false, 0, "2024-05-02T10:00:00", none⟩]).totalResults ∧
    filterResults ⟨"text", "ai", 0, 10⟩
        [⟨"1", "text", true, 1, "2024-05-01T10:00:00", none⟩,
          ⟨"2", "image", false, 0, "2024-05-02T10:00:00", none⟩]
      = (filterResults ⟨"all", "ai", 0, 10⟩
          [⟨"1", "text", true, 1, "2024-05-01T10:00:00", none⟩,
            ⟨"2", "image", false, 0, "2024-05-02T10:00:00", none⟩]).filter
          (fun r => r.type == "text") ∧
    filterResults ⟨"image", "ai", 0, 10⟩
        [⟨"1", "text", true, 1, "2024-05-01T10:00:00", none⟩,
          ⟨"2", "image", false, 0, "2024-05-02T10:00:00", none⟩]
      = (filterResults ⟨"all", "ai", 0, 10⟩
          [⟨"1", "text", true, 1, "2024-05-01T10:00:00", none⟩,
            ⟨"2", "image", false, 0, "2024-05-02T10:00:00", none⟩]).filter
          (fun r => r.type == "image") ∧
    filterResults ⟨"video", "ai", 0, 10⟩
        [⟨"1", "text", true, 1, "2024-05-01T10:00:00", none⟩,
          ⟨"2", "image", false, 0, "2024-05-02T10:00:00", none⟩]
      = (filterResults ⟨"all", "ai", 0, 10⟩
          [⟨"1", "text", true, 1, "2024-05-01T10:00:00", none⟩,
            ⟨"2", "image", false, 0, "2024-05-02T10:00:00", none⟩]).filter
          (fun r => r.type == "video") :=
  type_filter_partitions _ "ai" 0 10 (by decide)

end Dashboard
